import Mathlib

/-!
# netedit: the loader thread and the mean data element

A shallow embedding of `src/netedit/GNELoadThread.cpp` and of the attribute and parent
accessors of `src/netedit/elements/data/GNEMeanData.cpp`.

The loader thread configures the process-wide options registry, calls the option checks,
the projection set-up and the import/build pipeline, forwards every diagnostic written
while its retrievers are registered to the GUI event queue, and finally posts one
`GNEEvent_NetworkLoaded`.  Its effects are recorded in a trace (oldest first).
Collaborators that live outside the two embedded files are parameters of the model
(`Env`).

A mean data element is attached to one edge or one lane and stores a file name.  Its
member functions return `Except Fault _`, or the state they leave together with the
exception they raised.
-/

namespace GNELoadThread

/-! ## Diagnostics and events -/

/-- Severity of a message, `MsgHandler::MsgType`. -/
inductive MsgType where
  | MT_MESSAGE
  | MT_WARNING
  | MT_ERROR
  deriving DecidableEq, Repr

/-- One message written through `WRITE_MESSAGE`, `WRITE_WARNING` or `WRITE_ERROR`. -/
structure Diagnostic where
  type : MsgType
  msg : String
  deriving DecidableEq, Repr

/-- Modelled from the spec: the operations the loader applies to a `NBNetBuilder`
(`NetworkBuilder.applyOptions/compute` and the import into it); the builder itself is
not among the embedded files. -/
inductive BuilderOp where
  | applyOptions
  | load
  | compute
  deriving DecidableEq, Repr

/-- Modelled from the spec: the network builder `NBNetBuilder`, abstracted to the
operations that were applied to it, in order. -/
structure NBNetBuilder where
  ops : List BuilderOp
  deriving DecidableEq, Repr

/-- Modelled from the spec: the network `GNENet` (the "opaque owning reference" of a
LoadResult; `GNENet.cpp` is not among the embedded files), created by
`new GNENet(netBuilder)`; `updated` records `computeAndUpdate`. -/
structure GNENet where
  netBuilder : NBNetBuilder
  updated : Bool
  deriving DecidableEq, Repr

/-- The events the thread adds to `myEventQue`: `GUIEvent_Message` and
`GNEEvent_NetworkLoaded`.  A null `GNENet*` is `none`. -/
inductive GUIEvent where
  | message (type : MsgType) (msg : String)
  | networkLoaded (net : Option GNENet) (file : String) (settingsFile : String)
      (viewportFromRegistry : Bool)
  deriving DecidableEq, Repr

/-! ## The options registry -/

/-- Modelled from the spec: one registered option of the registry (the `Option`
classes are not among the embedded files): its value in string form, whether it is
set, and whether it may still be written. -/
structure OptionEntry where
  value : String
  isSet : Bool
  writable : Bool
  deriving DecidableEq, Repr

/-- Modelled from the spec: the options registry `OptionsCont` (its implementation is
not among the embedded files); the spec names its operations
`OptionsRegistry.clear/set/get/resetWritable`.  It is a list of named entries. -/
structure OptionsCont where
  entries : List (String × OptionEntry)
  deriving DecidableEq, Repr

namespace OptionsCont

/-- Modelled from the spec: `OptionsCont::clear` removes every registered option. -/
def clear (_oc : OptionsCont) : OptionsCont := ⟨[]⟩

/-- Modelled from the spec: look an option up by name. -/
def find (oc : OptionsCont) (name : String) : Option OptionEntry :=
  oc.entries.lookup name

/-- Modelled from the spec: `OptionsCont::doRegister` adds a new named option; a name
that is already registered keeps its first entry. -/
def doRegister (oc : OptionsCont) (name : String) (o : OptionEntry) : OptionsCont :=
  match oc.find name with
  | some _ => oc
  | none => ⟨oc.entries ++ [(name, o)]⟩

/-- Register a list of options in order. -/
def registerAll (oc : OptionsCont) : List (String × OptionEntry) → OptionsCont
  | [] => oc
  | (n, o) :: rest => registerAll (oc.doRegister n o) rest

/-- Replace the entry stored under `name`. -/
def replace : List (String × OptionEntry) → String → OptionEntry →
    List (String × OptionEntry)
  | [], _, _ => []
  | (n, o) :: rest, name, e =>
    if n = name then (n, e) :: rest else (n, o) :: replace rest name e

/-- Modelled from the spec: `OptionsCont::set` writes a value into a registered,
writable option, marks it set and no longer writable; otherwise the registry is left
as it is. -/
def set (oc : OptionsCont) (name : String) (value : String) : OptionsCont :=
  match oc.find name with
  | some o =>
    if o.writable then ⟨replace oc.entries name ⟨value, true, false⟩⟩ else oc
  | none => oc

/-- Modelled from the spec: `OptionsCont::resetWritable` makes every option writable
again. -/
def resetWritable (oc : OptionsCont) : OptionsCont :=
  ⟨oc.entries.map (fun p => (p.1, { p.2 with writable := true }))⟩

/-- Modelled from the spec: `OptionsCont::isSet`. -/
def isSet (oc : OptionsCont) (name : String) : Bool :=
  match oc.find name with
  | some o => o.isSet
  | none => false

/-- Modelled from the spec: `OptionsCont::getString`. -/
def getString (oc : OptionsCont) (name : String) : String :=
  match oc.find name with
  | some o => o.value
  | none => ""

/-- Modelled from the spec: `OptionsCont::getBool`; boolean options hold `"true"` or
`"false"` (the loader itself writes them so, see `setDefaultOptions`). -/
def getBool (oc : OptionsCont) (name : String) : Bool :=
  decide (oc.getString name = "true")

end OptionsCont

/-- Modelled from the spec: `new Option_Bool(false)`, a boolean option with a default,
which counts as set. -/
def Option_Bool (b : Bool) : OptionEntry :=
  ⟨if b then "true" else "false", true, true⟩

/-- Modelled from the spec: `new Option_String()`, a string option without a value. -/
def Option_String : OptionEntry := ⟨"", false, true⟩

/-- Modelled from the spec: `new Option_FileName()`, a file name option without a
value. -/
def Option_FileName : OptionEntry := ⟨"", false, true⟩

/-! ## Process-wide state, thread members and the trace -/

/-- Modelled from the spec: one `MsgHandler` instance (the diagnostic hub of one
severity; `MsgHandler.cpp` is not among the embedded files).  The spec names its
operations `DiagnosticHub.addSink/removeSink/clear/wasInformed`: the handler knows
whether the loader's retriever of its severity is registered, and whether it was
informed since it was last cleared. -/
structure MsgHandler where
  retrieverRegistered : Bool
  wasInformed : Bool
  deriving DecidableEq, Repr

/-- What a `catch` clause of the loader can meet: a `ProcessError`, another exception
derived from `std::exception`, or an exception of an unrelated type. -/
inductive Thrown where
  | processError (what : String)
  | stdException (what : String)
  | other
  deriving DecidableEq, Repr

/-- The four modules whose `checkOptions` the loader calls. -/
inductive Frame where
  | NIFrame
  | NBFrame
  | NWFrame
  | SystemFrame
  deriving DecidableEq, Repr

/-- The effects recorded in the trace: handler operations, option reads, calls of the
collaborators (with the registry they are handed), operations on the network and its
builder, and the two operations on the event queue. -/
inductive Action where
  | addRetriever (t : MsgType)
  | removeRetriever (t : MsgType)
  | clear (t : MsgType)
  | wasInformed (result : Bool)
  | inform (t : MsgType) (msg : String)
  | getBool (name : String) (result : Bool)
  | getString (name : String) (result : String)
  | isSet (name : String) (result : Bool)
  | getOptions (args : List String) (oc : OptionsCont)
  | initOutputOptions
  | checkOptions (frame : Frame) (oc : OptionsCont)
  | initRandGlobal
  | geoConvInit (oc : OptionsCont)
  | setValidation (validation : String) (netValidation : String)
  | newNBNetBuilder
  | applyOptions (oc : OptionsCont)
  | newGNENet (netBuilder : NBNetBuilder)
  | niLoad (oc : OptionsCont)
  | nbCompute (oc : OptionsCont)
  | computeFinal
  | computeAndUpdate (oc : OptionsCont)
  | deleteNet (net : Option GNENet)
  | deleteNetBuilder
  | queueAdd (e : GUIEvent)
  | signal
  deriving DecidableEq, Repr

/-- The state a run works on: the three process-wide message handlers, the
process-wide options registry, the arguments held by `OptionsIO`, and the members
`myFile`, `myLoadNet`, `myNewNet` of the thread. -/
structure LoaderState where
  messageInstance : MsgHandler
  warningInstance : MsgHandler
  errorInstance : MsgHandler
  oc : OptionsCont
  args : List String
  myFile : String
  myLoadNet : Bool
  myNewNet : Bool
  deriving DecidableEq, Repr

/-- A state together with the trace of the effects performed so far, oldest first. -/
structure Exec extends LoaderState where
  trace : List Action
  deriving DecidableEq, Repr

/-- What a collaborator call does: the registry it leaves, the diagnostics it writes
(in order), and its result. -/
structure Effect (α : Type) where
  oc : OptionsCont
  diags : List Diagnostic
  result : α

/-- The parts of the program outside `GNELoadThread.cpp`, and the build
configuration. -/
structure Env where
  /-- Whether `_DEBUG` is defined (line 165). -/
  debugBuild : Bool
  /-- The value the caller observes when `initOptions` leaves its `catch` block and
  flows off the end of the function without a `return` (lines 300-306). -/
  initOptionsFallOff : Bool
  /-- Default of the parameter `guiSettingsFile` of `submitEndAndCleanup`, declared in
  `GNELoadThread.h`. -/
  defaultGuiSettingsFile : String
  /-- Default of the parameter `viewportFromRegistry` of `submitEndAndCleanup`. -/
  defaultViewportFromRegistry : Bool
  /-- The text of `ProcessError().what()`, declared in `UtilExceptions.h`. -/
  defaultProcessErrorText : String
  /-- Options registered by `SystemFrame::addConfigurationOptions`. -/
  addConfigurationOptions : List (String × OptionEntry)
  /-- Options registered by `GeoConvHelper::addProjectionOptions`. -/
  addProjectionOptions : List (String × OptionEntry)
  /-- Options registered by `SystemFrame::addReportOptions`. -/
  addReportOptions : List (String × OptionEntry)
  /-- Options registered by `NIFrame::fillOptions`. -/
  niFillOptions : List (String × OptionEntry)
  /-- Options registered by `NBFrame::fillOptions`. -/
  nbFillOptions : List (String × OptionEntry)
  /-- Options registered by `NWFrame::fillOptions`. -/
  nwFillOptions : List (String × OptionEntry)
  /-- Options registered by `RandHelper::insertRandOptions`. -/
  insertRandOptions : List (String × OptionEntry)
  /-- `OptionsIO::getOptions`: parses the arguments into the registry; the result is
  `some what` when it raises a `ProcessError`. -/
  getOptions : List String → OptionsCont → Effect (Option String)
  /-- The four `checkOptions`. -/
  checkOptions : Frame → OptionsCont → Effect Bool
  /-- `GeoConvHelper::init`. -/
  geoConvInit : OptionsCont → Effect Bool
  /-- `NILoader::load`. -/
  load : OptionsCont → Effect (Option Thrown)
  /-- `NBNetBuilder::compute`. -/
  compute : OptionsCont → Effect (Option Thrown)
  /-- `GNENet::computeAndUpdate`. -/
  computeAndUpdate : OptionsCont → Effect (Option Thrown)

/-! ## Message handling -/

/-- Append one action to the trace. -/
def Exec.log (x : Exec) (a : Action) : Exec :=
  { x with trace := x.trace ++ [a] }

/-- Replace the options registry. -/
def Exec.withOc (x : Exec) (oc : OptionsCont) : Exec :=
  { x with oc := oc }

/-- Assign `myFile`. -/
def Exec.withFile (x : Exec) (file : String) : Exec :=
  { x with myFile := file }

/-- The handler instance of a severity. -/
def Exec.handler (x : Exec) : MsgType → MsgHandler
  | .MT_MESSAGE => x.messageInstance
  | .MT_WARNING => x.warningInstance
  | .MT_ERROR => x.errorInstance

/-- Store a handler instance. -/
def Exec.setHandler (x : Exec) (t : MsgType) (h : MsgHandler) : Exec :=
  match t with
  | .MT_MESSAGE => { x with messageInstance := h }
  | .MT_WARNING => { x with warningInstance := h }
  | .MT_ERROR => { x with errorInstance := h }

/-- Modelled from the spec: `MsgHandler::addRetriever` for the loader's retriever of
severity `t`. -/
def addRetriever (x : Exec) (t : MsgType) : Exec :=
  (x.log (.addRetriever t)).setHandler t { (x.handler t) with retrieverRegistered := true }

/-- Modelled from the spec: `MsgHandler::removeRetriever` for the loader's retriever of
severity `t`. -/
def removeRetriever (x : Exec) (t : MsgType) : Exec :=
  (x.log (.removeRetriever t)).setHandler t { (x.handler t) with retrieverRegistered := false }

/-- Modelled from the spec: `MsgHandler::clear` forgets that the handler was
informed. -/
def clearHandler (x : Exec) (t : MsgType) : Exec :=
  (x.log (.clear t)).setHandler t { (x.handler t) with wasInformed := false }

/-- `GNELoadThread::retrieveMessage` (lines 321-326). -/
def retrieveMessage (x : Exec) (type : MsgType) (msg : String) : Exec :=
  (x.log (.queueAdd (.message type msg))).log .signal

/-- Modelled from the spec: `MsgHandler::inform` marks the handler informed and hands
the message to the loader's retriever when that is registered. -/
def inform (x : Exec) (t : MsgType) (msg : String) : Exec :=
  let x := (x.log (.inform t msg)).setHandler t { (x.handler t) with wasInformed := true }
  if (x.handler t).retrieverRegistered then retrieveMessage x t msg else x

/-- The macro `WRITE_ERROR`. -/
def WRITE_ERROR (x : Exec) (msg : String) : Exec := inform x .MT_ERROR msg

/-- The macro `WRITE_MESSAGE`. -/
def WRITE_MESSAGE (x : Exec) (msg : String) : Exec := inform x .MT_MESSAGE msg

/-- Write a list of diagnostics in order. -/
def informAll (x : Exec) : List Diagnostic → Exec
  | [] => x
  | d :: rest => informAll (inform x d.type d.msg) rest

/-- A collaborator call: the call is logged, its diagnostics are written, and the
registry is the one the call leaves. -/
def Exec.call {α : Type} (x : Exec) (a : Action) (e : Effect α) : Exec :=
  informAll ((x.log a).withOc e.oc) e.diags

/-! ## The loader -/

/-- `GNELoadThread::fillOptions` (lines 193-265).  Call examples, sub-topics and
descriptions do not touch the values and are left out. -/
def fillOptions (env : Env) (oc : OptionsCont) : OptionsCont :=
  let oc := oc.clear
  let oc := oc.registerAll env.addConfigurationOptions
  let oc := oc.registerAll env.addProjectionOptions
  let oc := oc.doRegister "new" (Option_Bool false)
  let oc := oc.doRegister "sumo-additionals-file" Option_String
  let oc := oc.doRegister "additionals-output" Option_String
  let oc := oc.doRegister "sumo-shapes-file" Option_String
  let oc := oc.doRegister "shapes-output" Option_String
  let oc := oc.doRegister "TLSPrograms-output" Option_String
  let oc := oc.doRegister "disable-laneIcons" (Option_Bool false)
  let oc := oc.doRegister "disable-textures" (Option_Bool false)
  let oc := oc.doRegister "gui-settings-file" Option_FileName
  let oc := oc.doRegister "registry-viewport" (Option_Bool false)
  let oc := oc.doRegister "window-size" Option_String
  let oc := oc.doRegister "window-pos" Option_String
  let oc := oc.doRegister "gui-testing" (Option_Bool false)
  let oc := oc.doRegister "gui-testing-debug" (Option_Bool false)
  let oc := oc.doRegister "gui-testing-debug-gl" (Option_Bool false)
  let oc := oc.registerAll env.addReportOptions
  let oc := oc.registerAll env.niFillOptions
  let oc := oc.registerAll env.nbFillOptions
  let oc := oc.registerAll env.nwFillOptions
  oc.registerAll env.insertRandOptions

/-- `GNELoadThread::setDefaultOptions` (lines 268-272). -/
def setDefaultOptions (oc : OptionsCont) : OptionsCont :=
  (oc.set "offset.disable-normalization" "true").set "no-turnarounds" "true"

/-- The `catch (ProcessError& e)` block of `initOptions` (lines 300-305): the text of
the exception is written unless it is empty or "Process Error", then the fixed
message. -/
def initOptionsCatch (x : Exec) (what : String) : Exec :=
  let x := if what ≠ "Process Error" ∧ what ≠ "" then WRITE_ERROR x what else x
  WRITE_ERROR x "Failed to parse options."

/-- Lines 279-292 of `initOptions`: the options are registered, the file of the
request is written into the registry, the defaults are set, and every option is made
writable again. -/
def prepareOptions (env : Env) (x : Exec) : Exec :=
  let x := x.withOc (fillOptions env x.oc)
  let x :=
    if x.myFile ≠ "" then
      if x.myLoadNet then x.withOc (x.oc.set "sumo-net-file" x.myFile)
      else x.withOc (x.oc.set "configuration-file" x.myFile)
    else x
  let x := x.withOc (setDefaultOptions x.oc)
  x.withOc x.oc.resetWritable

/-- `GNELoadThread::initOptions` (lines 275-306).  The `try` block returns `true`; the
`catch` block has no `return`, so the caller sees `env.initOptionsFallOff`. -/
def initOptions (env : Env) (x : Exec) : Exec × Bool :=
  let x := prepareOptions env x
  let r := env.getOptions x.args x.oc
  let x := x.call (.getOptions x.args x.oc) r
  match r.result with
  | none =>
    let outSet := x.oc.isSet "output-file"
    let x := x.log (.isSet "output-file" outSet)
    if !outSet then
      let netFile := x.oc.getString "sumo-net-file"
      let x := x.log (.getString "sumo-net-file" netFile)
      (x.withOc (x.oc.set "output-file" netFile), true)
    else (x, true)
  | some what => (initOptionsCatch x what, env.initOptionsFallOff)

/-- One `checkOptions` call. -/
def checkFrame (env : Env) (x : Exec) (f : Frame) : Exec × Bool :=
  let r := env.checkOptions f x.oc
  (x.call (.checkOptions f x.oc) r, r.result)

/-- The condition of lines 89-92: the four checks joined by `&&`, so a check is only
called when the ones before it passed. -/
def checkAllOptions (env : Env) (x : Exec) : Exec × Bool :=
  let a := checkFrame env x .NIFrame
  if a.2 then
    let b := checkFrame env a.1 .NBFrame
    if b.2 then
      let c := checkFrame env b.1 .NWFrame
      if c.2 then checkFrame env c.1 .SystemFrame else (c.1, false)
    else (b.1, false)
  else (a.1, false)

/-- `GNELoadThread::submitEndAndCleanup` (lines 180-190). -/
def submitEndAndCleanup (x : Exec) (net : Option GNENet) (guiSettingsFile : String)
    (viewportFromRegistry : Bool) : Exec :=
  let x := removeRetriever x .MT_ERROR
  let x := removeRetriever x .MT_WARNING
  let x := removeRetriever x .MT_MESSAGE
  let x := x.log (.queueAdd (.networkLoaded net x.myFile guiSettingsFile viewportFromRegistry))
  x.log .signal

/-- Where the `try` block of `run` stands when it is left: the state, the local `net`,
the builder, and the exception in flight if one was raised. -/
structure TryState where
  exec : Exec
  net : Option GNENet
  netBuilder : NBNetBuilder
  thrown : Option Thrown

/-- Lines 147-153: an empty `myFile` is replaced by the configuration file, or else by
the net file, when the option is set. -/
def resolveFile (x : Exec) : Exec :=
  if x.myFile = "" then
    let cfgSet := x.oc.isSet "configuration-file"
    let x := x.log (.isSet "configuration-file" cfgSet)
    if cfgSet then
      let cfg := x.oc.getString "configuration-file"
      (x.log (.getString "configuration-file" cfg)).withFile cfg
    else
      let netSet := x.oc.isSet "sumo-net-file"
      let x := x.log (.isSet "sumo-net-file" netSet)
      if netSet then
        let netFile := x.oc.getString "sumo-net-file"
        (x.log (.getString "sumo-net-file" netFile)).withFile netFile
      else x
  else x

/-- Lines 133-135: with "ignore-errors" the error handler is cleared. -/
def clearIgnoredErrors (x : Exec) : Exec :=
  let ignoreErrors := x.oc.getBool "ignore-errors"
  let x := x.log (.getBool "ignore-errors" ignoreErrors)
  if ignoreErrors then clearHandler x .MT_ERROR else x

/-- Lines 133-153 of the `try` block: the error check, the creation of the network,
the left-hand recomputation and the file name. -/
def buildNet (env : Env) (x : Exec) (netBuilder : NBNetBuilder) : TryState :=
  let x := clearIgnoredErrors x
  let informed := x.errorInstance.wasInformed
  let x := x.log (.wasInformed informed)
  if informed then
    ⟨x, none, netBuilder, some (.processError env.defaultProcessErrorText)⟩
  else
    let x := x.log (.newGNENet netBuilder)
    let lefthand := x.oc.getBool "lefthand"
    let x := x.log (.getBool "lefthand" lefthand)
    if lefthand then
      let r := env.computeAndUpdate x.oc
      let x := x.call (.computeAndUpdate x.oc) r
      match r.result with
      | some t => ⟨x, some ⟨netBuilder, false⟩, netBuilder, some t⟩
      | none => ⟨resolveFile x, some ⟨netBuilder, true⟩, netBuilder, none⟩
    else ⟨resolveFile x, some ⟨netBuilder, false⟩, netBuilder, none⟩

/-- The `try` block of `run` (lines 121-153). -/
def importNetwork (env : Env) (x : Exec) (netBuilder : NBNetBuilder) : TryState :=
  let rl := env.load x.oc
  let x := x.call (.niLoad x.oc) rl
  let netBuilder : NBNetBuilder := ⟨netBuilder.ops ++ [.load]⟩
  match rl.result with
  | some t => ⟨x, none, netBuilder, some t⟩
  | none =>
    if !x.myLoadNet then
      let x := WRITE_MESSAGE x "Performing initial computation ...\n"
      let rc := env.compute x.oc
      let x := x.call (.nbCompute x.oc) rc
      let netBuilder : NBNetBuilder := ⟨netBuilder.ops ++ [.compute]⟩
      match rc.result with
      | some t => ⟨x, none, netBuilder, some t⟩
      | none => buildNet env x netBuilder
    else buildNet env (x.log .computeFinal) netBuilder

/-- The `catch (ProcessError& e)` block of `run` (lines 155-162); afterwards `net` is
null. -/
def runCatchProcessError (x : Exec) (what : String) (net : Option GNENet) : Exec :=
  let x := if what ≠ "Process Error" ∧ what ≠ "" then WRITE_ERROR x what else x
  let x := WRITE_ERROR x "Failed to build network."
  let x := x.log (.deleteNet net)
  x.log .deleteNetBuilder

/-- How a run ends: the final state with its trace, and the exception that left `run`
if one did (`none`: `run` returned 0). -/
structure RunResult where
  exec : Exec
  uncaught : Option Thrown

/-- Line 174: the result is submitted with the settings file and the viewport flag
read from the registry. -/
def submitFromOptions (x : Exec) (net : Option GNENet) : RunResult :=
  let settings := x.oc.getString "gui-settings-file"
  let x := x.log (.getString "gui-settings-file" settings)
  let viewport := x.oc.getBool "registry-viewport"
  let x := x.log (.getBool "registry-viewport" viewport)
  ⟨submitEndAndCleanup x net settings viewport, none⟩

/-- `GNELoadThread::run` (lines 72-176).  The trace starts empty. -/
def run (env : Env) (s : LoaderState) : RunResult :=
  let x : Exec := { s with trace := [] }
  let x := addRetriever x .MT_MESSAGE
  let x := addRetriever x .MT_ERROR
  let x := addRetriever x .MT_WARNING
  let x := x.withOc x.oc.clear
  let i := initOptions env x
  if !i.2 then
    ⟨submitEndAndCleanup i.1 none env.defaultGuiSettingsFile env.defaultViewportFromRegistry,
      none⟩
  else
  let x := i.1.log .initOutputOptions
  let c := checkAllOptions env x
  if !c.2 then
    let x := WRITE_ERROR c.1 "Invalid Options. Nothing loaded"
    ⟨submitEndAndCleanup x none env.defaultGuiSettingsFile env.defaultViewportFromRegistry,
      none⟩
  else
  let x := clearHandler c.1 .MT_ERROR
  let x := clearHandler x .MT_WARNING
  let x := clearHandler x .MT_MESSAGE
  let x := x.log .initRandGlobal
  let g := env.geoConvInit x.oc
  let x := x.call (.geoConvInit x.oc) g
  if !g.result then
    let x := WRITE_ERROR x "Could not build projection!"
    ⟨submitEndAndCleanup x none env.defaultGuiSettingsFile env.defaultViewportFromRegistry,
      none⟩
  else
  let validation := x.oc.getString "xml-validation"
  let x := x.log (.getString "xml-validation" validation)
  let netValidation := x.oc.getString "xml-validation.net"
  let x := x.log (.getString "xml-validation.net" netValidation)
  let x := x.log (.setValidation validation netValidation)
  let x := x.log (.getBool "gui-testing-debug-gl" (x.oc.getBool "gui-testing-debug-gl"))
  let x := x.log .newNBNetBuilder
  let x := x.log (.applyOptions x.oc)
  let netBuilder : NBNetBuilder := ⟨[.applyOptions]⟩
  if x.myNewNet then
    submitFromOptions (x.log (.newGNENet netBuilder)) (some ⟨netBuilder, false⟩)
  else
    let t := importNetwork env x netBuilder
    match t.thrown with
    | none => submitFromOptions t.exec t.net
    | some (.processError what) => submitFromOptions (runCatchProcessError t.exec what t.net) none
    | some (.stdException what) =>
      let x := WRITE_ERROR t.exec what
      if env.debugBuild then ⟨x, some (.stdException what)⟩
      else submitFromOptions ((x.log (.deleteNet t.net)).log .deleteNetBuilder) none
    | some .other => ⟨t.exec, some .other⟩

/-- `GNELoadThread::loadConfigOrNet` (lines 309-318); `start()` runs `run` on the
worker thread. -/
def loadConfigOrNet (env : Env) (s : LoaderState) (file : String) (isNet : Bool)
    (useStartupOptions : Bool) (newNet : Bool) : RunResult :=
  let s := { s with myFile := file }
  let s := { s with myLoadNet := isNet }
  let s := if s.myFile ≠ "" ∧ !useStartupOptions then { s with args := [] } else s
  let s := { s with myNewNet := newNet }
  run env s

/-! ## Reading the trace -/

/-- The event an action adds to the queue, if it adds one. -/
def Action.event? : Action → Option GUIEvent
  | .queueAdd e => some e
  | _ => none

/-- The network handle carried by a `GNEEvent_NetworkLoaded`. -/
def GUIEvent.loadResult? : GUIEvent → Option (Option GNENet)
  | .networkLoaded net _ _ _ => some net
  | _ => none

/-- The text of an Error-severity `GUIEvent_Message`. -/
def GUIEvent.errorText? : GUIEvent → Option String
  | .message .MT_ERROR msg => some msg
  | _ => none

/-- The events added to the queue, in order. -/
def events (trace : List Action) : List GUIEvent :=
  trace.filterMap Action.event?

/-- The network handles carried by the `GNEEvent_NetworkLoaded` events, in order. -/
def loadResults (evs : List GUIEvent) : List (Option GNENet) :=
  evs.filterMap GUIEvent.loadResult?

/-- The texts of the Error-severity message events, in order. -/
def errorMessages (evs : List GUIEvent) : List String :=
  evs.filterMap GUIEvent.errorText?

/-! ## The states a run passes through

Names for the intermediate states of `run`, used to state and prove its properties. -/

/-- The state when `initOptions` is called (line 84): the three retrievers are
registered and the registry is cleared. -/
def atInit (s : LoaderState) : Exec :=
  let x : Exec := { s with trace := [] }
  let x := addRetriever x .MT_MESSAGE
  let x := addRetriever x .MT_ERROR
  let x := addRetriever x .MT_WARNING
  x.withOc x.oc.clear

/-- The call of `initOptions` in `run`: the state it leaves and the value `run`
tests. -/
def afterInit (env : Env) (s : LoaderState) : Exec × Bool :=
  initOptions env (atInit s)

/-- The option checks of lines 89-92 in `run`: the state they leave and their
conjunction. -/
def afterChecks (env : Env) (s : LoaderState) : Exec × Bool :=
  checkAllOptions env ((afterInit env s).1.log .initOutputOptions)

/-- The state when `GeoConvHelper::init` is called (line 103). -/
def atGeo (env : Env) (s : LoaderState) : Exec :=
  let x := clearHandler (afterChecks env s).1 .MT_ERROR
  let x := clearHandler x .MT_WARNING
  let x := clearHandler x .MT_MESSAGE
  x.log .initRandGlobal

/-- The state after `GeoConvHelper::init` returned. -/
def afterGeo (env : Env) (s : LoaderState) : Exec :=
  (atGeo env s).call (.geoConvInit (atGeo env s).oc) (env.geoConvInit (atGeo env s).oc)

/-- The state when the branch on `myNewNet` is reached (line 115). -/
def atBranch (env : Env) (s : LoaderState) : Exec :=
  let x := afterGeo env s
  let validation := x.oc.getString "xml-validation"
  let x := x.log (.getString "xml-validation" validation)
  let netValidation := x.oc.getString "xml-validation.net"
  let x := x.log (.getString "xml-validation.net" netValidation)
  let x := x.log (.setValidation validation netValidation)
  let x := x.log (.getBool "gui-testing-debug-gl" (x.oc.getBool "gui-testing-debug-gl"))
  let x := x.log .newNBNetBuilder
  x.log (.applyOptions x.oc)

/-- The `try` block as `run` executes it. -/
def afterImport (env : Env) (s : LoaderState) : TryState :=
  importNetwork env (atBranch env s) ⟨[.applyOptions]⟩

/-- Kinds of actions. -/
inductive ActionKind where
  | retriever
  | clear
  | wasInformed
  | inform
  | read
  | getOptions
  | initOutputOptions
  | checkOptions
  | initRandGlobal
  | geoConvInit
  | setValidation
  | builder
  | newGNENet
  | niLoad
  | nbCompute
  | computeFinal
  | computeAndUpdate
  | delete
  | message
  | result
  | signal
  deriving DecidableEq, Repr

/-- The kind of an action; the two events of the queue have kinds of their own. -/
def Action.kind : Action → ActionKind
  | .addRetriever _ => .retriever
  | .removeRetriever _ => .retriever
  | .clear _ => .clear
  | .wasInformed _ => .wasInformed
  | .inform _ _ => .inform
  | .getBool _ _ => .read
  | .getString _ _ => .read
  | .isSet _ _ => .read
  | .getOptions _ _ => .getOptions
  | .initOutputOptions => .initOutputOptions
  | .checkOptions _ _ => .checkOptions
  | .initRandGlobal => .initRandGlobal
  | .geoConvInit _ => .geoConvInit
  | .setValidation _ _ => .setValidation
  | .newNBNetBuilder => .builder
  | .applyOptions _ => .builder
  | .newGNENet _ => .newGNENet
  | .niLoad _ => .niLoad
  | .nbCompute _ => .nbCompute
  | .computeFinal => .computeFinal
  | .computeAndUpdate _ => .computeAndUpdate
  | .deleteNet _ => .delete
  | .deleteNetBuilder => .delete
  | .queueAdd (.message _ _) => .message
  | .queueAdd (.networkLoaded _ _ _ _) => .result
  | .signal => .signal

/-- The kinds of the actions performed before the branch on `myNewNet`, and on the
branch that creates an empty network. -/
def preludeKinds : List ActionKind :=
  [.clear, .inform, .read, .getOptions, .initOutputOptions, .checkOptions, .initRandGlobal,
    .geoConvInit, .setValidation, .builder, .newGNENet, .message, .signal]

/-- The kinds of the actions performed between the registration of the retrievers and
`submitEndAndCleanup`: every kind but `retriever` and `result`. -/
def bodyKinds : List ActionKind :=
  [.clear, .wasInformed, .inform, .read, .getOptions, .initOutputOptions, .checkOptions,
    .initRandGlobal, .geoConvInit, .setValidation, .builder, .newGNENet, .niLoad, .nbCompute,
    .computeFinal, .computeAndUpdate, .delete, .message, .signal]

/-- The trace of `y` continues the trace of `x` with actions whose kinds are all in
`ks`, and `y` has the arguments, the members `myLoadNet` and `myNewNet` and the
registered retrievers of `x`. -/
def Grows (ks : List ActionKind) (x y : Exec) : Prop :=
  (∃ seg, y.trace = x.trace ++ seg ∧ ∀ a ∈ seg, a.kind ∈ ks) ∧
  y.args = x.args ∧ y.myLoadNet = x.myLoadNet ∧ y.myNewNet = x.myNewNet ∧
  y.messageInstance.retrieverRegistered = x.messageInstance.retrieverRegistered ∧
  y.warningInstance.retrieverRegistered = x.warningInstance.retrieverRegistered ∧
  y.errorInstance.retrieverRegistered = x.errorInstance.retrieverRegistered

/-- The actions of one `inform`: the call itself and, when the loader's retriever is
registered, the message event and the signal. -/
def informActions (registered : Bool) (t : MsgType) (msg : String) : List Action :=
  .inform t msg :: (if registered then [.queueAdd (.message t msg), .signal] else [])

/-- The actions of writing a list of diagnostics, given which retrievers are
registered (message, warning, error). -/
def diagActions (regM regW regE : Bool) : List Diagnostic → List Action
  | [] => []
  | d :: rest =>
    informActions (match d.type with
      | .MT_MESSAGE => regM
      | .MT_WARNING => regW
      | .MT_ERROR => regE) d.type d.msg ++ diagActions regM regW regE rest

/-- Whether a list of diagnostics holds one of Error severity. -/
def hasError (ds : List Diagnostic) : Bool :=
  ds.any (fun d => decide (d.type = .MT_ERROR))

/-- The kinds of the actions of `initOptions`. -/
def initKinds : List ActionKind :=
  [.getOptions, .read, .inform, .message, .signal]

/-- The kinds of the actions of the option checks. -/
def checkKinds : List ActionKind :=
  [.checkOptions, .inform, .message, .signal]

/-- The kinds of the actions of the `try` block. -/
def importKinds : List ActionKind :=
  [.niLoad, .nbCompute, .computeFinal, .read, .clear, .wasInformed, .newGNENet,
    .computeAndUpdate, .inform, .message, .signal]

/-- The kinds of the actions of the `catch` blocks of `run`. -/
def catchKinds : List ActionKind :=
  [.inform, .message, .signal, .delete]

/-- A list of kinds that holds the three kinds of writing a diagnostic. -/
def HasDiagKinds (ks : List ActionKind) : Prop :=
  ActionKind.inform ∈ ks ∧ ActionKind.message ∈ ks ∧ ActionKind.signal ∈ ks

/-- The actions `y` performed after `x`, when the trace of `y` continues that of
`x`. -/
def newActions (x y : Exec) : List Action :=
  y.trace.drop x.trace.length

/-- The actions of `submitEndAndCleanup`. -/
def submitActions (net : Option GNENet) (file : String) (guiSettingsFile : String)
    (viewportFromRegistry : Bool) : List Action :=
  [.removeRetriever .MT_ERROR, .removeRetriever .MT_WARNING, .removeRetriever .MT_MESSAGE,
    .queueAdd (.networkLoaded net file guiSettingsFile viewportFromRegistry), .signal]

/-- The text of an Error-severity message written to the error handler. -/
def Action.errorWritten? : Action → Option String
  | .inform .MT_ERROR msg => some msg
  | _ => none

/-- The Error-severity messages written (through `WRITE_ERROR` or by a collaborator),
in order. -/
def errorsWritten (trace : List Action) : List String :=
  trace.filterMap Action.errorWritten?

/-- The actions of `initOptions` in a run. -/
def initSeg (env : Env) (s : LoaderState) : List Action :=
  newActions (atInit s) (afterInit env s).1

/-- The actions of the option checks in a run. -/
def checkSeg (env : Env) (s : LoaderState) : List Action :=
  newActions ((afterInit env s).1.log .initOutputOptions) (afterChecks env s).1

/-- The actions of the `try` block in a run. -/
def importSeg (env : Env) (s : LoaderState) : List Action :=
  newActions (atBranch env s) (afterImport env s).exec

/-- The actions of lines 108-113 of `run`, given the registry they read. -/
def branchActions (oc : OptionsCont) : List Action :=
  [.getString "xml-validation" (oc.getString "xml-validation"),
    .getString "xml-validation.net" (oc.getString "xml-validation.net"),
    .setValidation (oc.getString "xml-validation") (oc.getString "xml-validation.net"),
    .getBool "gui-testing-debug-gl" (oc.getBool "gui-testing-debug-gl"),
    .newNBNetBuilder, .applyOptions oc]

/-- The three registrations that open a run. -/
def registerActions : List Action :=
  [.addRetriever .MT_MESSAGE, .addRetriever .MT_ERROR, .addRetriever .MT_WARNING]

/-- The trace of a run has the expected shape for the kinds `ks`: the three
registrations, then actions of kinds in `ks`, then, if `run` returned, the actions of
`submitEndAndCleanup`. -/
def HasShape (ks : List ActionKind) (r : RunResult) : Prop :=
  ∃ body, (∀ a ∈ body, a.kind ∈ ks) ∧
    ((∃ net g v, r.uncaught = none ∧
        r.exec.trace = registerActions ++ (body ++ submitActions net r.exec.myFile g v)) ∨
      (r.uncaught ≠ none ∧ r.exec.trace = registerActions ++ body))

/-! ## Failures of a run, read off its trace -/

/-- An option check called in the run returned `false`. -/
def CheckFailed (env : Env) (trace : List Action) : Prop :=
  ∃ f oc, Action.checkOptions f oc ∈ trace ∧ (env.checkOptions f oc).result = false

/-- A `GeoConvHelper::init` call of the run returned `false`. -/
def ProjectionFailed (env : Env) (trace : List Action) : Prop :=
  ∃ oc, Action.geoConvInit oc ∈ trace ∧ (env.geoConvInit oc).result = false

/-- A call of `NILoader::load`, `NBNetBuilder::compute` or `GNENet::computeAndUpdate`
in the run raised `thr`. -/
def ImportRaised (env : Env) (trace : List Action) (thr : Thrown) : Prop :=
  ∃ oc,
    (Action.niLoad oc ∈ trace ∧ (env.load oc).result = some thr) ∨
    (Action.nbCompute oc ∈ trace ∧ (env.compute oc).result = some thr) ∨
    (Action.computeAndUpdate oc ∈ trace ∧ (env.computeAndUpdate oc).result = some thr)

/-! ## Concrete collaborators

A small set of collaborators used to evaluate the loader on concrete requests. -/

/-- A collaborator call that writes nothing and leaves the registry as it is. -/
def quiet {α : Type} (a : α) (oc : OptionsCont) : Effect α :=
  ⟨oc, [], a⟩

/-- Collaborators that always succeed silently, in a build without `_DEBUG`; the
option modules register the options the loader reads. -/
def quietEnv : Env where
  debugBuild := false
  initOptionsFallOff := true
  defaultGuiSettingsFile := ""
  defaultViewportFromRegistry := false
  defaultProcessErrorText := "Process Error"
  addConfigurationOptions := [("configuration-file", Option_FileName)]
  addProjectionOptions := []
  addReportOptions := [("xml-validation", ⟨"auto", true, true⟩),
    ("xml-validation.net", ⟨"never", true, true⟩)]
  niFillOptions := [("sumo-net-file", Option_FileName), ("ignore-errors", Option_Bool false)]
  nbFillOptions := [("lefthand", Option_Bool false),
    ("offset.disable-normalization", Option_Bool false), ("no-turnarounds", Option_Bool false)]
  nwFillOptions := [("output-file", Option_FileName)]
  insertRandOptions := []
  getOptions := fun _ => quiet none
  checkOptions := fun _ => quiet true
  geoConvInit := quiet true
  load := quiet none
  compute := quiet none
  computeAndUpdate := quiet none

/-- The state in which a freshly constructed thread finds the process: the constructor
has registered the error retriever (line 61), the registry is empty. -/
def freshState : LoaderState where
  messageInstance := ⟨false, false⟩
  warningInstance := ⟨false, false⟩
  errorInstance := ⟨true, false⟩
  oc := ⟨[]⟩
  args := []
  myFile := ""
  myLoadNet := false
  myNewNet := false

/-- A `_DEBUG` build in which `NILoader::load` raises a `std::exception` that is not
a `ProcessError`. -/
def debugThrowEnv : Env :=
  { quietEnv with
    debugBuild := true
    load := quiet (some (.stdException "bad allocation")) }

/-- Collaborators whose `NIFrame::checkOptions` reports an error and returns
`false`. -/
def checkFailEnv : Env :=
  { quietEnv with
    checkOptions := fun f oc =>
      match f with
      | .NIFrame => ⟨oc, [⟨.MT_ERROR, "No nodes loaded."⟩], false⟩
      | _ => quiet true oc }

/-- Collaborators for a configuration file that cannot be read: `OptionsIO::getOptions`
raises a `ProcessError`; the caller of `initOptions` then sees a non-zero value. -/
def unreadableConfigEnv : Env :=
  { quietEnv with
    initOptionsFallOff := true
    getOptions := fun _ oc =>
      ⟨oc, [], some "Could not access configuration 'missing.sumocfg'."⟩ }

/-- Collaborators with a left-hand network: option parsing sets "lefthand", and the
geometry recomputation `GNENet::computeAndUpdate` reports an error without raising. -/
def lefthandEnv : Env :=
  { quietEnv with
    getOptions := fun _ oc => ⟨oc.set "lefthand" "true", [], none⟩
    computeAndUpdate := fun oc => ⟨oc, [⟨.MT_ERROR, "Unable to compute geometry."⟩], none⟩ }

/-- Collaborators whose `NILoader::load` reports an error without raising. -/
def loadErrorEnv : Env :=
  { quietEnv with
    load := fun oc => ⟨oc, [⟨.MT_ERROR, "No nodes loaded."⟩], none⟩ }

/-- The members of a thread after `loadConfigOrNet` stored a request for a net
file. -/
def netFileRequest : LoaderState :=
  { freshState with myFile := "net.net.xml", myLoadNet := true }

end GNELoadThread

namespace MeanData

/-! ## Mean data: the data model -/

/-- Modelled from the spec: the attribute keys `SumoXMLAttr` (the enumeration is
declared outside the embedded files).  `SUMO_ATTR_ID` and `SUMO_ATTR_FILE` are the two
enumerators `GNEMeanData.cpp` names; `other` stands for every remaining enumerator. -/
inductive SumoXMLAttr where
  | SUMO_ATTR_ID
  | SUMO_ATTR_FILE
  | other (code : Nat)
  deriving DecidableEq, Repr

/-- Modelled from the spec: the two element tags the constructors pass on
(`SumoXMLTag` is declared outside the embedded files). -/
inductive SumoXMLTag where
  | SUMO_TAG_MEANDATA_EDGE
  | SUMO_TAG_MEANDATA_LANE
  deriving DecidableEq, Repr

/-- Modelled from the spec: the two GL object types the constructors pass on
(`GUIGlObjectType` is declared outside the embedded files). -/
inductive GUIGlObjectType where
  | GLO_MEANDATAEDGE
  | GLO_MEANDATALANE
  deriving DecidableEq, Repr

/-- Modelled from the spec: a `Position`, as a parent hands it out; the mean data
only passes it on. -/
structure Position where
  x : Rat
  y : Rat
  z : Rat
  deriving DecidableEq, Repr

/-- Modelled from the spec: a `Boundary`, as a parent edge hands it out; the mean
data only passes it on. -/
structure Boundary where
  xmin : Rat
  ymin : Rat
  xmax : Rat
  ymax : Rat
  deriving DecidableEq, Repr

/-- Modelled from the spec: a parent edge (`GNEEdge` is not among the embedded
files), as the record of what the three accessors called on it return. -/
structure GNEEdge where
  getID : String
  getPositionInView : Position
  getCenteringBoundary : Boundary
  deriving DecidableEq, Repr

/-- Modelled from the spec: a parent lane (`GNELane` is not among the embedded
files), as the record of what the two accessors called on it return. -/
structure GNELane where
  getID : String
  getPositionInView : Position
  deriving DecidableEq, Repr

/-- Modelled from the spec: the string tables of `SUMOXMLDefinitions` and
`toString` (outside the embedded files): the name of a tag, the name of an attribute,
and the file-name check. -/
structure SUMOXMLDefinitions where
  tagStr : SumoXMLTag → String
  attrStr : SumoXMLAttr → String
  isValidFilename : String → Bool

/-- How a member function can end without a value: the `InvalidArgument` exception,
or `front()` called on an empty vector (undefined behaviour in C++). -/
inductive Fault where
  | InvalidArgument (msg : String)
  | emptyFront
  deriving DecidableEq, Repr

/-- The call `front()` on a `std::vector`. -/
def front {α : Type} : List α → Except Fault α
  | [] => .error .emptyFront
  | a :: _ => .ok a

/-- The state a call leaves behind, and the exception it raised, if any. -/
structure Outcome (σ : Type) where
  state : σ
  raised : Option Fault

/-- A `GNEMeanData` object: the arguments of `GUIGlObject(type, microsimID, icon)`,
the net, tag, parent edges and parent lanes of `GNEHierarchicalElement` (the four other
parent lists are always `{}` and never read), and the member `myFile`. -/
structure GNEMeanData where
  glType : GUIGlObjectType
  microsimID : String
  myNet : GNELoadThread.GNENet
  tag : SumoXMLTag
  parentEdges : List GNEEdge
  parentLanes : List GNELane
  myFile : String
  deriving DecidableEq, Repr

/-- Modelled from the spec: the `GNEChange_Attribute(ac, key, value)` handed to the
undo list (the class is not among the embedded files). -/
structure GNEChange_Attribute where
  ac : GNEMeanData
  key : SumoXMLAttr
  value : String
  deriving DecidableEq, Repr

/-- Modelled from the spec: the undo list (`GNEUndoList` is not among the embedded
files), as the attribute changes submitted to it, oldest first.  What the list does
with a change afterwards is left out. -/
structure GNEUndoList where
  changes : List GNEChange_Attribute
  deriving DecidableEq, Repr

/-- The call `undoList->changeAttribute(change)`. -/
def GNEUndoList.changeAttribute (undoList : GNEUndoList) (change : GNEChange_Attribute) :
    GNEUndoList :=
  { changes := undoList.changes ++ [change] }

namespace GNEMeanData

/-! ## Mean data: the member functions -/

/-- The constructor for an edge (lines 43-47). -/
def ofEdge (net : GNELoadThread.GNENet) (edge : GNEEdge) (file : String) : GNEMeanData :=
  { glType := .GLO_MEANDATAEDGE
    microsimID := edge.getID
    myNet := net
    tag := .SUMO_TAG_MEANDATA_EDGE
    parentEdges := [edge]
    parentLanes := []
    myFile := file }

/-- The constructor for a lane (lines 50-54). -/
def ofLane (net : GNELoadThread.GNENet) (lane : GNELane) (file : String) : GNEMeanData :=
  { glType := .GLO_MEANDATALANE
    microsimID := lane.getID
    myNet := net
    tag := .SUMO_TAG_MEANDATA_LANE
    parentEdges := []
    parentLanes := [lane]
    myFile := file }

/-- The inherited `getTagStr()`: the name of the tag. -/
def getTagStr (defs : SUMOXMLDefinitions) (m : GNEMeanData) : String :=
  defs.tagStr m.tag

/-- The exception of every `default:` branch (lines 242, 270, 281, 316). -/
def noAttribute (defs : SUMOXMLDefinitions) (m : GNEMeanData) (key : SumoXMLAttr) : Fault :=
  .InvalidArgument
    (m.getTagStr defs ++ " doesn't have an attribute of type '" ++ defs.attrStr key ++ "'")

/-- `GNEMeanData::getPositionInView` (lines 72-79). -/
def getPositionInView (m : GNEMeanData) : Except Fault Position :=
  if m.parentLanes.length > 0 then
    (front m.parentLanes).map fun lane => lane.getPositionInView
  else
    (front m.parentEdges).map fun edge => edge.getPositionInView

/-- `GNEMeanData::getCenteringBoundary` (lines 224-227). -/
def getCenteringBoundary (m : GNEMeanData) : Except Fault Boundary :=
  (front m.parentEdges).map fun edge => edge.getCenteringBoundary

/-- `GNEMeanData::getAttribute` (lines 230-244). -/
def getAttribute (defs : SUMOXMLDefinitions) (m : GNEMeanData) (key : SumoXMLAttr) :
    Except Fault String :=
  match key with
  | .SUMO_ATTR_ID =>
    if m.parentLanes.length > 0 then
      (front m.parentLanes).map fun lane => lane.getID
    else
      (front m.parentEdges).map fun edge => edge.getID
  | .SUMO_ATTR_FILE => .ok m.myFile
  | _ => .error (m.noAttribute defs key)

/-- `GNEMeanData::getAttributeDouble` (lines 247-250): there is no double attribute. -/
def getAttributeDouble (defs : SUMOXMLDefinitions) (m : GNEMeanData) (key : SumoXMLAttr) :
    Except Fault Rat :=
  .error (.InvalidArgument
    (m.getTagStr defs ++ " doesn't have a double attribute of type '" ++ defs.attrStr key ++ "'"))

/-- `GNEMeanData::isAttributeEnabled` (lines 253-261). -/
def isAttributeEnabled (key : SumoXMLAttr) : Bool :=
  match key with
  | .SUMO_ATTR_ID => false
  | _ => true

/-- `GNEMeanData::setAttribute(key, value, undoList)` (lines 264-272).  The
`case SUMO_ATTR_FILE:` has no `break`, so after the change is handed to the undo list
control goes on into `default:`. -/
def setAttribute (defs : SUMOXMLDefinitions) (m : GNEMeanData) (key : SumoXMLAttr)
    (value : String) (undoList : GNEUndoList) : Outcome GNEUndoList :=
  let undoList :=
    match key with
    | .SUMO_ATTR_FILE => undoList.changeAttribute ⟨m, key, value⟩
    | _ => undoList
  ⟨undoList, some (m.noAttribute defs key)⟩

/-- `GNEMeanData::isValid` (lines 275-283). -/
def isValid (defs : SUMOXMLDefinitions) (m : GNEMeanData) (key : SumoXMLAttr)
    (value : String) : Except Fault Bool :=
  match key with
  | .SUMO_ATTR_FILE => .ok (defs.isValidFilename value)
  | _ => .error (m.noAttribute defs key)

/-- `GNEMeanData::getPopUpID` (lines 286-289). -/
def getPopUpID (defs : SUMOXMLDefinitions) (m : GNEMeanData) : String :=
  m.getTagStr defs

/-- `GNEMeanData::getHierarchyName` (lines 292-300). -/
def getHierarchyName (defs : SUMOXMLDefinitions) (m : GNEMeanData) : Except Fault String :=
  if m.parentLanes.length > 0 then
    (front m.parentLanes).map fun lane => m.getTagStr defs ++ ": " ++ lane.getID
  else
    (front m.parentEdges).map fun edge => m.getTagStr defs ++ ": " ++ edge.getID

/-- The private `GNEMeanData::setAttribute(key, value)` (lines 309-318). -/
def setAttributeDirect (defs : SUMOXMLDefinitions) (m : GNEMeanData) (key : SumoXMLAttr)
    (value : String) : Outcome GNEMeanData :=
  match key with
  | .SUMO_ATTR_FILE => ⟨{ m with myFile := value }, none⟩
  | _ => ⟨m, some (m.noAttribute defs key)⟩

end GNEMeanData

/-! ## Mean data: concrete objects -/

/-- String tables in which an attribute other than the two named ones is called by
its number. -/
def plainDefinitions : SUMOXMLDefinitions :=
  { tagStr := fun
      | .SUMO_TAG_MEANDATA_EDGE => "meanDataEdge"
      | .SUMO_TAG_MEANDATA_LANE => "meanDataLane"
    attrStr := fun
      | .SUMO_ATTR_ID => "id"
      | .SUMO_ATTR_FILE => "file"
      | .other code => toString code
    isValidFilename := fun value => value ≠ "" }

/-- An edge "E0". -/
def edgeE0 : GNEEdge :=
  { getID := "E0"
    getPositionInView := ⟨10, 20, 0⟩
    getCenteringBoundary := ⟨0, 15, 20, 25⟩ }

/-- The first lane of the edge "E0". -/
def laneE0_0 : GNELane :=
  { getID := "E0_0"
    getPositionInView := ⟨10, 18, 0⟩ }

/-- A network to hold the objects. -/
def someNet : GNELoadThread.GNENet :=
  ⟨⟨[]⟩, false⟩

/-- A mean data on the edge "E0". -/
def edgeMeanData : GNEMeanData :=
  .ofEdge someNet edgeE0 "edgedata.xml"

/-- A mean data on the lane "E0_0". -/
def laneMeanData : GNEMeanData :=
  .ofLane someNet laneE0_0 "lanedata.xml"

end MeanData

namespace GNELoadThread

/-! ## Basic facts about the state operations -/

section StateFacts

variable (x : Exec) (t : MsgType) (msg : String) (ds : List Diagnostic) (a : Action)

@[simp] theorem log_oc :
    (x.log a).oc
      = x.oc := by
  rfl

@[simp] theorem log_args :
    (x.log a).args
      = x.args := by
  rfl

@[simp] theorem log_myFile :
    (x.log a).myFile
      = x.myFile := by
  rfl

@[simp] theorem log_myLoadNet :
    (x.log a).myLoadNet
      = x.myLoadNet := by
  rfl

@[simp] theorem log_myNewNet :
    (x.log a).myNewNet
      = x.myNewNet := by
  rfl

@[simp] theorem log_regM :
    (x.log a).messageInstance.retrieverRegistered
      = x.messageInstance.retrieverRegistered := by
  rfl

@[simp] theorem log_regW :
    (x.log a).warningInstance.retrieverRegistered
      = x.warningInstance.retrieverRegistered := by
  rfl

@[simp] theorem log_regE :
    (x.log a).errorInstance.retrieverRegistered
      = x.errorInstance.retrieverRegistered := by
  rfl

@[simp] theorem log_errInformed :
    (x.log a).errorInstance.wasInformed
      = x.errorInstance.wasInformed := by
  rfl

@[simp] theorem log_trace :
    (x.log a).trace
      = x.trace ++ [a] := by
  rfl

@[simp] theorem withOc_oc (oc : OptionsCont) :
    (x.withOc oc).oc
      = oc := by
  rfl

@[simp] theorem withOc_args (oc : OptionsCont) :
    (x.withOc oc).args
      = x.args := by
  rfl

@[simp] theorem withOc_myFile (oc : OptionsCont) :
    (x.withOc oc).myFile
      = x.myFile := by
  rfl

@[simp] theorem withOc_myLoadNet (oc : OptionsCont) :
    (x.withOc oc).myLoadNet
      = x.myLoadNet := by
  rfl

@[simp] theorem withOc_myNewNet (oc : OptionsCont) :
    (x.withOc oc).myNewNet
      = x.myNewNet := by
  rfl

@[simp] theorem withOc_regM (oc : OptionsCont) :
    (x.withOc oc).messageInstance.retrieverRegistered
      = x.messageInstance.retrieverRegistered := by
  rfl

@[simp] theorem withOc_regW (oc : OptionsCont) :
    (x.withOc oc).warningInstance.retrieverRegistered
      = x.warningInstance.retrieverRegistered := by
  rfl

@[simp] theorem withOc_regE (oc : OptionsCont) :
    (x.withOc oc).errorInstance.retrieverRegistered
      = x.errorInstance.retrieverRegistered := by
  rfl

@[simp] theorem withOc_errInformed (oc : OptionsCont) :
    (x.withOc oc).errorInstance.wasInformed
      = x.errorInstance.wasInformed := by
  rfl

@[simp] theorem withOc_trace (oc : OptionsCont) :
    (x.withOc oc).trace
      = x.trace := by
  rfl

@[simp] theorem withFile_oc (file : String) :
    (x.withFile file).oc
      = x.oc := by
  rfl

@[simp] theorem withFile_args (file : String) :
    (x.withFile file).args
      = x.args := by
  rfl

@[simp] theorem withFile_myFile (file : String) :
    (x.withFile file).myFile
      = file := by
  rfl

@[simp] theorem withFile_myLoadNet (file : String) :
    (x.withFile file).myLoadNet
      = x.myLoadNet := by
  rfl

@[simp] theorem withFile_myNewNet (file : String) :
    (x.withFile file).myNewNet
      = x.myNewNet := by
  rfl

@[simp] theorem withFile_regM (file : String) :
    (x.withFile file).messageInstance.retrieverRegistered
      = x.messageInstance.retrieverRegistered := by
  rfl

@[simp] theorem withFile_regW (file : String) :
    (x.withFile file).warningInstance.retrieverRegistered
      = x.warningInstance.retrieverRegistered := by
  rfl

@[simp] theorem withFile_regE (file : String) :
    (x.withFile file).errorInstance.retrieverRegistered
      = x.errorInstance.retrieverRegistered := by
  rfl

@[simp] theorem withFile_errInformed (file : String) :
    (x.withFile file).errorInstance.wasInformed
      = x.errorInstance.wasInformed := by
  rfl

@[simp] theorem withFile_trace (file : String) :
    (x.withFile file).trace
      = x.trace := by
  rfl

@[simp] theorem addRetriever_oc :
    (addRetriever x t).oc
      = x.oc := by
  cases t <;> rfl

@[simp] theorem addRetriever_args :
    (addRetriever x t).args
      = x.args := by
  cases t <;> rfl

@[simp] theorem addRetriever_myFile :
    (addRetriever x t).myFile
      = x.myFile := by
  cases t <;> rfl

@[simp] theorem addRetriever_myLoadNet :
    (addRetriever x t).myLoadNet
      = x.myLoadNet := by
  cases t <;> rfl

@[simp] theorem addRetriever_myNewNet :
    (addRetriever x t).myNewNet
      = x.myNewNet := by
  cases t <;> rfl

@[simp] theorem addRetriever_regM :
    (addRetriever x t).messageInstance.retrieverRegistered
      = (if t = .MT_MESSAGE then true else x.messageInstance.retrieverRegistered) := by
  cases t <;> rfl

@[simp] theorem addRetriever_regW :
    (addRetriever x t).warningInstance.retrieverRegistered
      = (if t = .MT_WARNING then true else x.warningInstance.retrieverRegistered) := by
  cases t <;> rfl

@[simp] theorem addRetriever_regE :
    (addRetriever x t).errorInstance.retrieverRegistered
      = (if t = .MT_ERROR then true else x.errorInstance.retrieverRegistered) := by
  cases t <;> rfl

@[simp] theorem addRetriever_errInformed :
    (addRetriever x t).errorInstance.wasInformed
      = x.errorInstance.wasInformed := by
  cases t <;> rfl

@[simp] theorem addRetriever_trace :
    (addRetriever x t).trace
      = x.trace ++ [.addRetriever t] := by
  cases t <;> rfl

@[simp] theorem removeRetriever_oc :
    (removeRetriever x t).oc
      = x.oc := by
  cases t <;> rfl

@[simp] theorem removeRetriever_args :
    (removeRetriever x t).args
      = x.args := by
  cases t <;> rfl

@[simp] theorem removeRetriever_myFile :
    (removeRetriever x t).myFile
      = x.myFile := by
  cases t <;> rfl

@[simp] theorem removeRetriever_myLoadNet :
    (removeRetriever x t).myLoadNet
      = x.myLoadNet := by
  cases t <;> rfl

@[simp] theorem removeRetriever_myNewNet :
    (removeRetriever x t).myNewNet
      = x.myNewNet := by
  cases t <;> rfl

@[simp] theorem removeRetriever_regM :
    (removeRetriever x t).messageInstance.retrieverRegistered
      = (if t = .MT_MESSAGE then false else x.messageInstance.retrieverRegistered) := by
  cases t <;> rfl

@[simp] theorem removeRetriever_regW :
    (removeRetriever x t).warningInstance.retrieverRegistered
      = (if t = .MT_WARNING then false else x.warningInstance.retrieverRegistered) := by
  cases t <;> rfl

@[simp] theorem removeRetriever_regE :
    (removeRetriever x t).errorInstance.retrieverRegistered
      = (if t = .MT_ERROR then false else x.errorInstance.retrieverRegistered) := by
  cases t <;> rfl

@[simp] theorem removeRetriever_errInformed :
    (removeRetriever x t).errorInstance.wasInformed
      = x.errorInstance.wasInformed := by
  cases t <;> rfl

@[simp] theorem removeRetriever_trace :
    (removeRetriever x t).trace
      = x.trace ++ [.removeRetriever t] := by
  cases t <;> rfl

@[simp] theorem clearHandler_oc :
    (clearHandler x t).oc
      = x.oc := by
  cases t <;> rfl

@[simp] theorem clearHandler_args :
    (clearHandler x t).args
      = x.args := by
  cases t <;> rfl

@[simp] theorem clearHandler_myFile :
    (clearHandler x t).myFile
      = x.myFile := by
  cases t <;> rfl

@[simp] theorem clearHandler_myLoadNet :
    (clearHandler x t).myLoadNet
      = x.myLoadNet := by
  cases t <;> rfl

@[simp] theorem clearHandler_myNewNet :
    (clearHandler x t).myNewNet
      = x.myNewNet := by
  cases t <;> rfl

@[simp] theorem clearHandler_regM :
    (clearHandler x t).messageInstance.retrieverRegistered
      = x.messageInstance.retrieverRegistered := by
  cases t <;> rfl

@[simp] theorem clearHandler_regW :
    (clearHandler x t).warningInstance.retrieverRegistered
      = x.warningInstance.retrieverRegistered := by
  cases t <;> rfl

@[simp] theorem clearHandler_regE :
    (clearHandler x t).errorInstance.retrieverRegistered
      = x.errorInstance.retrieverRegistered := by
  cases t <;> rfl

@[simp] theorem clearHandler_errInformed :
    (clearHandler x t).errorInstance.wasInformed
      = (if t = .MT_ERROR then false else x.errorInstance.wasInformed) := by
  cases t <;> rfl

@[simp] theorem clearHandler_trace :
    (clearHandler x t).trace
      = x.trace ++ [.clear t] := by
  cases t <;> rfl

end StateFacts

/-! ## Basic facts about writing diagnostics -/

section InformFacts

variable (x : Exec) (t : MsgType) (msg : String) (ds : List Diagnostic)

@[simp] theorem inform_oc : (inform x t msg).oc = x.oc := by
  cases t <;> simp only [inform, Exec.log, Exec.setHandler, Exec.handler, retrieveMessage] <;>
    split <;> rfl

@[simp] theorem inform_args : (inform x t msg).args = x.args := by
  cases t <;> simp only [inform, Exec.log, Exec.setHandler, Exec.handler, retrieveMessage] <;>
    split <;> rfl

@[simp] theorem inform_myFile : (inform x t msg).myFile = x.myFile := by
  cases t <;> simp only [inform, Exec.log, Exec.setHandler, Exec.handler, retrieveMessage] <;>
    split <;> rfl

@[simp] theorem inform_myLoadNet : (inform x t msg).myLoadNet = x.myLoadNet := by
  cases t <;> simp only [inform, Exec.log, Exec.setHandler, Exec.handler, retrieveMessage] <;>
    split <;> rfl

@[simp] theorem inform_myNewNet : (inform x t msg).myNewNet = x.myNewNet := by
  cases t <;> simp only [inform, Exec.log, Exec.setHandler, Exec.handler, retrieveMessage] <;>
    split <;> rfl

@[simp] theorem inform_regM :
    (inform x t msg).messageInstance.retrieverRegistered
      = x.messageInstance.retrieverRegistered := by
  cases t <;> simp only [inform, Exec.log, Exec.setHandler, Exec.handler, retrieveMessage] <;>
    split <;> rfl

@[simp] theorem inform_regW :
    (inform x t msg).warningInstance.retrieverRegistered
      = x.warningInstance.retrieverRegistered := by
  cases t <;> simp only [inform, Exec.log, Exec.setHandler, Exec.handler, retrieveMessage] <;>
    split <;> rfl

@[simp] theorem inform_regE :
    (inform x t msg).errorInstance.retrieverRegistered
      = x.errorInstance.retrieverRegistered := by
  cases t <;> simp only [inform, Exec.log, Exec.setHandler, Exec.handler, retrieveMessage] <;>
    split <;> rfl

@[simp] theorem inform_errInformed :
    (inform x t msg).errorInstance.wasInformed
      = (x.errorInstance.wasInformed || decide (t = .MT_ERROR)) := by
  cases t <;> simp only [inform, Exec.log, Exec.setHandler, Exec.handler, retrieveMessage] <;>
    split <;> simp

@[simp] theorem inform_trace :
    (inform x t msg).trace
      = x.trace ++ informActions (match t with
          | .MT_MESSAGE => x.messageInstance.retrieverRegistered
          | .MT_WARNING => x.warningInstance.retrieverRegistered
          | .MT_ERROR => x.errorInstance.retrieverRegistered) t msg := by
  cases t <;>
    simp only [inform, Exec.log, Exec.setHandler, Exec.handler, retrieveMessage,
      informActions] <;>
    split <;> simp_all

@[simp] theorem informAll_oc : (informAll x ds).oc = x.oc := by
  induction ds generalizing x with
  | nil => rfl
  | cons d rest ih => simp [informAll, ih]

@[simp] theorem informAll_args : (informAll x ds).args = x.args := by
  induction ds generalizing x with
  | nil => rfl
  | cons d rest ih => simp [informAll, ih]

@[simp] theorem informAll_myFile : (informAll x ds).myFile = x.myFile := by
  induction ds generalizing x with
  | nil => rfl
  | cons d rest ih => simp [informAll, ih]

@[simp] theorem informAll_myLoadNet : (informAll x ds).myLoadNet = x.myLoadNet := by
  induction ds generalizing x with
  | nil => rfl
  | cons d rest ih => simp [informAll, ih]

@[simp] theorem informAll_myNewNet : (informAll x ds).myNewNet = x.myNewNet := by
  induction ds generalizing x with
  | nil => rfl
  | cons d rest ih => simp [informAll, ih]

@[simp] theorem informAll_regM :
    (informAll x ds).messageInstance.retrieverRegistered
      = x.messageInstance.retrieverRegistered := by
  induction ds generalizing x with
  | nil => rfl
  | cons d rest ih => simp [informAll, ih]

@[simp] theorem informAll_regW :
    (informAll x ds).warningInstance.retrieverRegistered
      = x.warningInstance.retrieverRegistered := by
  induction ds generalizing x with
  | nil => rfl
  | cons d rest ih => simp [informAll, ih]

@[simp] theorem informAll_regE :
    (informAll x ds).errorInstance.retrieverRegistered
      = x.errorInstance.retrieverRegistered := by
  induction ds generalizing x with
  | nil => rfl
  | cons d rest ih => simp [informAll, ih]

@[simp] theorem informAll_errInformed :
    (informAll x ds).errorInstance.wasInformed
      = (x.errorInstance.wasInformed || hasError ds) := by
  induction ds generalizing x with
  | nil => simp [informAll, hasError]
  | cons d rest ih => simp [informAll, ih, hasError, Bool.or_assoc]

@[simp] theorem informAll_trace :
    (informAll x ds).trace
      = x.trace ++ diagActions x.messageInstance.retrieverRegistered
          x.warningInstance.retrieverRegistered x.errorInstance.retrieverRegistered ds := by
  induction ds generalizing x with
  | nil => simp [informAll, diagActions]
  | cons d rest ih =>
    simp only [informAll, ih, inform_trace, diagActions, inform_regM, inform_regW,
      inform_regE, List.append_assoc]

@[simp] theorem call_oc {α : Type} (a : Action) (e : Effect α) :
    (x.call a e).oc
      = e.oc := by
  simp [Exec.call]

@[simp] theorem call_args {α : Type} (a : Action) (e : Effect α) :
    (x.call a e).args
      = x.args := by
  simp [Exec.call]

@[simp] theorem call_myFile {α : Type} (a : Action) (e : Effect α) :
    (x.call a e).myFile
      = x.myFile := by
  simp [Exec.call]

@[simp] theorem call_myLoadNet {α : Type} (a : Action) (e : Effect α) :
    (x.call a e).myLoadNet
      = x.myLoadNet := by
  simp [Exec.call]

@[simp] theorem call_myNewNet {α : Type} (a : Action) (e : Effect α) :
    (x.call a e).myNewNet
      = x.myNewNet := by
  simp [Exec.call]

@[simp] theorem call_regM {α : Type} (a : Action) (e : Effect α) :
    (x.call a e).messageInstance.retrieverRegistered
      = x.messageInstance.retrieverRegistered := by
  simp [Exec.call]

@[simp] theorem call_regW {α : Type} (a : Action) (e : Effect α) :
    (x.call a e).warningInstance.retrieverRegistered
      = x.warningInstance.retrieverRegistered := by
  simp [Exec.call]

@[simp] theorem call_regE {α : Type} (a : Action) (e : Effect α) :
    (x.call a e).errorInstance.retrieverRegistered
      = x.errorInstance.retrieverRegistered := by
  simp [Exec.call]

@[simp] theorem call_errInformed {α : Type} (a : Action) (e : Effect α) :
    (x.call a e).errorInstance.wasInformed
      = (x.errorInstance.wasInformed || hasError e.diags) := by
  simp [Exec.call]

@[simp] theorem call_trace {α : Type} (a : Action) (e : Effect α) :
    (x.call a e).trace
      = x.trace ++ a :: diagActions x.messageInstance.retrieverRegistered
          x.warningInstance.retrieverRegistered x.errorInstance.retrieverRegistered e.diags := by
  simp [Exec.call]

end InformFacts

/-! ## The structure of a run -/

theorem run_eq (env : Env) (s : LoaderState) :
    run env s =
      if !(afterInit env s).2 then
        ⟨submitEndAndCleanup (afterInit env s).1 none env.defaultGuiSettingsFile
          env.defaultViewportFromRegistry, none⟩
      else if !(afterChecks env s).2 then
        ⟨submitEndAndCleanup (WRITE_ERROR (afterChecks env s).1 "Invalid Options. Nothing loaded")
          none env.defaultGuiSettingsFile env.defaultViewportFromRegistry, none⟩
      else if !(env.geoConvInit (atGeo env s).oc).result then
        ⟨submitEndAndCleanup (WRITE_ERROR (afterGeo env s) "Could not build projection!")
          none env.defaultGuiSettingsFile env.defaultViewportFromRegistry, none⟩
      else if (atBranch env s).myNewNet then
        submitFromOptions ((atBranch env s).log (.newGNENet ⟨[.applyOptions]⟩))
          (some ⟨⟨[.applyOptions]⟩, false⟩)
      else
        match (afterImport env s).thrown with
        | none => submitFromOptions (afterImport env s).exec (afterImport env s).net
        | some (.processError what) =>
          submitFromOptions
            (runCatchProcessError (afterImport env s).exec what (afterImport env s).net) none
        | some (.stdException what) =>
          if env.debugBuild then
            ⟨WRITE_ERROR (afterImport env s).exec what, some (.stdException what)⟩
          else
            submitFromOptions
              (((WRITE_ERROR (afterImport env s).exec what).log
                (.deleteNet (afterImport env s).net)).log .deleteNetBuilder) none
        | some .other => ⟨(afterImport env s).exec, some .other⟩ := by
  rfl

/-! ## How the blocks extend the trace -/

theorem kind_of_mem_diagActions {a : Action} {rm rw re : Bool} {ds : List Diagnostic}
    (h : a ∈ diagActions rm rw re ds) :
    a.kind = .inform ∨ a.kind = .message ∨ a.kind = .signal := by
  induction ds with
  | nil => simp [diagActions] at h
  | cons d rest ih =>
    simp only [diagActions, informActions, List.mem_append, List.mem_cons] at h
    rcases h with (h | h) | h
    · subst h; exact Or.inl rfl
    · split at h
      · simp only [List.mem_cons, List.mem_singleton, List.not_mem_nil, or_false] at h
        rcases h with h | h
        · subst h; exact Or.inr (Or.inl rfl)
        · subst h; exact Or.inr (Or.inr rfl)
      · simp at h
    · exact ih h

theorem not_mem_diagActions {a : Action} (rm rw re : Bool) (ds : List Diagnostic)
    (h : a.kind ≠ .inform ∧ a.kind ≠ .message ∧ a.kind ≠ .signal) :
    a ∉ diagActions rm rw re ds := by
  intro hm
  rcases kind_of_mem_diagActions hm with k | k | k
  · exact h.1 k
  · exact h.2.1 k
  · exact h.2.2 k

@[simp] theorem mem_diagActions_of_kind {a : Action} (rm rw re : Bool) (ds : List Diagnostic)
    (h₁ : a.kind ≠ .inform) (h₂ : a.kind ≠ .message) (h₃ : a.kind ≠ .signal) :
    a ∈ diagActions rm rw re ds ↔ False :=
  iff_false_intro (not_mem_diagActions rm rw re ds ⟨h₁, h₂, h₃⟩)

@[simp] theorem mem_informActions_of_kind {a : Action} (r : Bool) (t : MsgType) (msg : String)
    (h₁ : a.kind ≠ .inform) (h₂ : a.kind ≠ .message) (h₃ : a.kind ≠ .signal) :
    a ∈ informActions r t msg ↔ False := by
  have := not_mem_diagActions (a := a) r r r [⟨t, msg⟩] ⟨h₁, h₂, h₃⟩
  simp only [diagActions, List.append_nil] at this
  cases t <;> simpa using this

theorem Grows.refl (ks : List ActionKind) (x : Exec) : Grows ks x x :=
  ⟨⟨[], by simp, by simp⟩, rfl, rfl, rfl, rfl, rfl, rfl⟩

theorem Grows.trans {ks : List ActionKind} {x y z : Exec} (h₁ : Grows ks x y)
    (h₂ : Grows ks y z) : Grows ks x z := by
  obtain ⟨⟨s₁, e₁, k₁⟩, a₁, b₁, c₁, d₁, f₁, g₁⟩ := h₁
  obtain ⟨⟨s₂, e₂, k₂⟩, a₂, b₂, c₂, d₂, f₂, g₂⟩ := h₂
  refine ⟨⟨s₁ ++ s₂, by rw [e₂, e₁, List.append_assoc], ?_⟩,
    a₂.trans a₁, b₂.trans b₁, c₂.trans c₁, d₂.trans d₁, f₂.trans f₁, g₂.trans g₁⟩
  intro a ha
  rcases List.mem_append.mp ha with h | h
  · exact k₁ a h
  · exact k₂ a h

theorem Grows.mono {ks ks' : List ActionKind} {x y : Exec} (h : Grows ks x y)
    (hk : ∀ k ∈ ks, k ∈ ks') : Grows ks' x y := by
  obtain ⟨⟨seg, e, k⟩, rest⟩ := h
  exact ⟨⟨seg, e, fun a ha => hk _ (k a ha)⟩, rest⟩

theorem Grows.trace_eq {ks : List ActionKind} {x y : Exec} (h : Grows ks x y) :
    y.trace = x.trace ++ newActions x y := by
  obtain ⟨⟨seg, e, _⟩, _⟩ := h
  simp [newActions, e]

theorem Grows.kind_mem {ks : List ActionKind} {x y : Exec} (h : Grows ks x y) {a : Action}
    (ha : a ∈ newActions x y) : a.kind ∈ ks := by
  obtain ⟨⟨seg, e, k⟩, _⟩ := h
  simp only [newActions, e, List.drop_left] at ha
  exact k a ha

theorem Grows.thenLog {ks : List ActionKind} {x y : Exec} (h : Grows ks x y) (a : Action)
    (ha : a.kind ∈ ks) : Grows ks x (y.log a) :=
  h.trans ⟨⟨[a], rfl, by simpa using ha⟩, rfl, rfl, rfl, rfl, rfl, rfl⟩

theorem Grows.thenWithOc {ks : List ActionKind} {x y : Exec} (h : Grows ks x y)
    (oc : OptionsCont) : Grows ks x (y.withOc oc) :=
  h.trans ⟨⟨[], by simp, by simp⟩, rfl, rfl, rfl, rfl, rfl, rfl⟩

theorem Grows.thenWithFile {ks : List ActionKind} {x y : Exec} (h : Grows ks x y)
    (file : String) : Grows ks x (y.withFile file) :=
  h.trans ⟨⟨[], by simp, by simp⟩, rfl, rfl, rfl, rfl, rfl, rfl⟩

theorem Grows.thenClear {ks : List ActionKind} {x y : Exec} (h : Grows ks x y)
    (t : MsgType) (hc : ActionKind.clear ∈ ks) : Grows ks x (clearHandler y t) :=
  h.trans ⟨⟨[.clear t], by simp, by simpa [Action.kind] using hc⟩,
    by simp, by simp, by simp, by simp, by simp, by simp⟩

theorem Grows.thenInformAll {ks : List ActionKind} {x y : Exec} (h : Grows ks x y)
    (ds : List Diagnostic) (hd : HasDiagKinds ks) : Grows ks x (informAll y ds) := by
  refine h.trans ⟨⟨_, informAll_trace y ds, ?_⟩, by simp, by simp, by simp, by simp, by simp,
    by simp⟩
  intro a ha
  rcases kind_of_mem_diagActions ha with k | k | k <;> rw [k]
  · exact hd.1
  · exact hd.2.1
  · exact hd.2.2

theorem Grows.thenInform {ks : List ActionKind} {x y : Exec} (h : Grows ks x y)
    (t : MsgType) (msg : String) (hd : HasDiagKinds ks) : Grows ks x (inform y t msg) :=
  h.thenInformAll [⟨t, msg⟩] hd

theorem Grows.thenError {ks : List ActionKind} {x y : Exec} (h : Grows ks x y)
    (msg : String) (hd : HasDiagKinds ks) : Grows ks x (WRITE_ERROR y msg) :=
  h.thenInform .MT_ERROR msg hd

theorem Grows.thenCall {ks : List ActionKind} {α : Type} {x y : Exec} (h : Grows ks x y)
    (a : Action) (e : Effect α) (ha : a.kind ∈ ks) (hd : HasDiagKinds ks) :
    Grows ks x (y.call a e) :=
  ((h.thenLog a ha).thenWithOc e.oc).thenInformAll e.diags hd

theorem Grows.thenPrepare {ks : List ActionKind} {x y : Exec} (h : Grows ks x y)
    (env : Env) : Grows ks x (prepareOptions env y) := by
  unfold prepareOptions
  simp only []
  split
  · split <;> exact (((h.thenWithOc _).thenWithOc _).thenWithOc _).thenWithOc _
  · exact ((h.thenWithOc _).thenWithOc _).thenWithOc _

theorem Grows.thenCatch {ks : List ActionKind} {x y : Exec} (h : Grows ks x y)
    (what : String) (hd : HasDiagKinds ks) : Grows ks x (initOptionsCatch y what) := by
  unfold initOptionsCatch
  simp only []
  split
  · exact (h.thenError _ hd).thenError _ hd
  · exact h.thenError _ hd

theorem Grows.thenInit {ks : List ActionKind} {x y : Exec} (h : Grows ks x y) (env : Env)
    (hk : ∀ k ∈ initKinds, k ∈ ks) : Grows ks x (initOptions env y).1 := by
  have hd : HasDiagKinds ks :=
    ⟨hk .inform (by simp [initKinds]), hk .message (by simp [initKinds]),
      hk .signal (by simp [initKinds])⟩
  have hc := (h.thenPrepare env).thenCall
    (.getOptions (prepareOptions env y).args (prepareOptions env y).oc)
    (env.getOptions (prepareOptions env y).args (prepareOptions env y).oc)
    (hk _ (by simp [Action.kind, initKinds])) hd
  unfold initOptions
  simp only []
  split
  · split
    · exact ((hc.thenLog (.isSet _ _) (hk _ (by simp [Action.kind, initKinds]))).thenLog
        (.getString _ _) (hk _ (by simp [Action.kind, initKinds]))).thenWithOc _
    · exact hc.thenLog (.isSet _ _) (hk _ (by simp [Action.kind, initKinds]))
  · exact hc.thenCatch _ hd

theorem Grows.thenCheck {ks : List ActionKind} {x y : Exec} (h : Grows ks x y) (env : Env)
    (f : Frame) (hk : ∀ k ∈ checkKinds, k ∈ ks) : Grows ks x (checkFrame env y f).1 :=
  h.thenCall (.checkOptions f y.oc) _ (hk _ (by simp [Action.kind, checkKinds]))
    ⟨hk .inform (by simp [checkKinds]), hk .message (by simp [checkKinds]),
      hk .signal (by simp [checkKinds])⟩

theorem Grows.thenChecks {ks : List ActionKind} {x y : Exec} (h : Grows ks x y) (env : Env)
    (hk : ∀ k ∈ checkKinds, k ∈ ks) : Grows ks x (checkAllOptions env y).1 := by
  unfold checkAllOptions
  simp only []
  split
  · split
    · split
      · exact (((h.thenCheck env _ hk).thenCheck env _ hk).thenCheck env _ hk).thenCheck
          env _ hk
      · exact ((h.thenCheck env _ hk).thenCheck env _ hk).thenCheck env _ hk
    · exact (h.thenCheck env _ hk).thenCheck env _ hk
  · exact h.thenCheck env _ hk

theorem Grows.thenResolve {ks : List ActionKind} {x y : Exec} (h : Grows ks x y)
    (hr : ActionKind.read ∈ ks) : Grows ks x (resolveFile y) := by
  unfold resolveFile
  simp only []
  split
  · split
    · exact ((h.thenLog (.isSet _ _) (by simpa [Action.kind] using hr)).thenLog
        (.getString _ _) (by simpa [Action.kind] using hr)).thenWithFile _
    · split
      · exact (((h.thenLog (.isSet _ _) (by simpa [Action.kind] using hr)).thenLog
          (.isSet _ _) (by simpa [Action.kind] using hr)).thenLog (.getString _ _)
          (by simpa [Action.kind] using hr)).thenWithFile _
      · exact (h.thenLog (.isSet _ _) (by simpa [Action.kind] using hr)).thenLog
          (.isSet _ _) (by simpa [Action.kind] using hr)
  · exact h

theorem Grows.thenIgnore {ks : List ActionKind} {x y : Exec} (h : Grows ks x y)
    (hr : ActionKind.read ∈ ks) (hc : ActionKind.clear ∈ ks) :
    Grows ks x (clearIgnoredErrors y) := by
  unfold clearIgnoredErrors
  simp only []
  split
  · exact (h.thenLog (.getBool _ _) (by simpa [Action.kind] using hr)).thenClear _ hc
  · exact h.thenLog (.getBool _ _) (by simpa [Action.kind] using hr)

theorem Grows.thenBuild {ks : List ActionKind} {x y : Exec} (h : Grows ks x y) (env : Env)
    (nb : NBNetBuilder) (hk : ∀ k ∈ importKinds, k ∈ ks) :
    Grows ks x (buildNet env y nb).exec := by
  have hd : HasDiagKinds ks :=
    ⟨hk .inform (by simp [importKinds]), hk .message (by simp [importKinds]),
      hk .signal (by simp [importKinds])⟩
  have hr : ActionKind.read ∈ ks := hk _ (by simp [importKinds])
  have h₁ := h.thenIgnore hr (hk _ (by simp [importKinds]))
  unfold buildNet
  simp only []
  repeat' split
  all_goals try dsimp only
  all_goals repeat' (first
    | assumption
    | with_reducible apply Grows.thenResolve
    | with_reducible apply Grows.thenLog
    | with_reducible apply Grows.thenCall
    | (apply hk; simp [Action.kind, importKinds]))

theorem Grows.thenImport {ks : List ActionKind} {x y : Exec} (h : Grows ks x y) (env : Env)
    (nb : NBNetBuilder) (hk : ∀ k ∈ importKinds, k ∈ ks) :
    Grows ks x (importNetwork env y nb).exec := by
  have hd : HasDiagKinds ks :=
    ⟨hk .inform (by simp [importKinds]), hk .message (by simp [importKinds]),
      hk .signal (by simp [importKinds])⟩
  unfold importNetwork WRITE_MESSAGE
  simp only []
  repeat' split
  all_goals try dsimp only
  all_goals repeat' (first
    | assumption
    | (refine Grows.thenBuild ?_ env _ hk)
    | with_reducible apply Grows.thenLog
    | with_reducible apply Grows.thenCall
    | with_reducible apply Grows.thenInform
    | (apply hk; simp [Action.kind, importKinds]))

theorem Grows.thenCatchBuild {ks : List ActionKind} {x y : Exec} (h : Grows ks x y)
    (what : String) (net : Option GNENet) (hk : ∀ k ∈ catchKinds, k ∈ ks) :
    Grows ks x (runCatchProcessError y what net) := by
  have hd : HasDiagKinds ks :=
    ⟨hk .inform (by simp [catchKinds]), hk .message (by simp [catchKinds]),
      hk .signal (by simp [catchKinds])⟩
  unfold runCatchProcessError
  simp only []
  split
  · exact (((h.thenError _ hd).thenError _ hd).thenLog (.deleteNet _)
      (hk _ (by simp [Action.kind, catchKinds]))).thenLog .deleteNetBuilder
      (hk _ (by simp [Action.kind, catchKinds]))
  · exact ((h.thenError _ hd).thenLog (.deleteNet _)
      (hk _ (by simp [Action.kind, catchKinds]))).thenLog .deleteNetBuilder
      (hk _ (by simp [Action.kind, catchKinds]))

/-! ## Facts about the blocks -/

section BlockFacts

variable (env : Env) (x : Exec)

@[simp] theorem prepareOptions_myFile : (prepareOptions env x).myFile = x.myFile := by
  unfold prepareOptions; simp only []; repeat' split
  all_goals simp

@[simp] theorem prepareOptions_args : (prepareOptions env x).args = x.args := by
  unfold prepareOptions; simp only []; repeat' split
  all_goals simp

@[simp] theorem prepareOptions_myLoadNet : (prepareOptions env x).myLoadNet = x.myLoadNet := by
  unfold prepareOptions; simp only []; repeat' split
  all_goals simp

@[simp] theorem prepareOptions_myNewNet : (prepareOptions env x).myNewNet = x.myNewNet := by
  unfold prepareOptions; simp only []; repeat' split
  all_goals simp

@[simp] theorem prepareOptions_regM : (prepareOptions env x).messageInstance.retrieverRegistered = x.messageInstance.retrieverRegistered := by
  unfold prepareOptions; simp only []; repeat' split
  all_goals simp

@[simp] theorem prepareOptions_regW : (prepareOptions env x).warningInstance.retrieverRegistered = x.warningInstance.retrieverRegistered := by
  unfold prepareOptions; simp only []; repeat' split
  all_goals simp

@[simp] theorem prepareOptions_regE : (prepareOptions env x).errorInstance.retrieverRegistered = x.errorInstance.retrieverRegistered := by
  unfold prepareOptions; simp only []; repeat' split
  all_goals simp

@[simp] theorem prepareOptions_errInformed : (prepareOptions env x).errorInstance.wasInformed = x.errorInstance.wasInformed := by
  unfold prepareOptions; simp only []; repeat' split
  all_goals simp

@[simp] theorem prepareOptions_trace : (prepareOptions env x).trace = x.trace := by
  unfold prepareOptions; simp only []; repeat' split
  all_goals simp

@[simp] theorem initOptionsCatch_myFile (what : String) :
    (initOptionsCatch x what).myFile = x.myFile := by
  unfold initOptionsCatch WRITE_ERROR; simp only []; split <;> simp

@[simp] theorem initOptions_myFile : (initOptions env x).1.myFile = x.myFile := by
  unfold initOptions; simp only []; repeat' split
  all_goals simp

@[simp] theorem checkAllOptions_myFile : (checkAllOptions env x).1.myFile = x.myFile := by
  unfold checkAllOptions checkFrame; simp only []; repeat' split
  all_goals simp

@[simp] theorem submitEndAndCleanup_trace (net : Option GNENet) (g : String) (v : Bool) :
    (submitEndAndCleanup x net g v).trace = x.trace ++ submitActions net x.myFile g v := by
  simp [submitEndAndCleanup, submitActions]

@[simp] theorem submitEndAndCleanup_oc (net : Option GNENet) (g : String) (v : Bool) :
    (submitEndAndCleanup x net g v).oc = x.oc := by
  simp [submitEndAndCleanup]

@[simp] theorem submitEndAndCleanup_myFile (net : Option GNENet) (g : String) (v : Bool) :
    (submitEndAndCleanup x net g v).myFile = x.myFile := by
  simp [submitEndAndCleanup]

theorem submitEndAndCleanup_unregistered (net : Option GNENet) (g : String) (v : Bool) :
    (submitEndAndCleanup x net g v).messageInstance.retrieverRegistered = false ∧
    (submitEndAndCleanup x net g v).warningInstance.retrieverRegistered = false ∧
    (submitEndAndCleanup x net g v).errorInstance.retrieverRegistered = false := by
  simp [submitEndAndCleanup]

@[simp] theorem submitFromOptions_trace (net : Option GNENet) :
    (submitFromOptions x net).exec.trace
      = x.trace ++ .getString "gui-settings-file" (x.oc.getString "gui-settings-file") ::
          .getBool "registry-viewport" (x.oc.getBool "registry-viewport") ::
          submitActions net x.myFile (x.oc.getString "gui-settings-file")
            (x.oc.getBool "registry-viewport") := by
  simp [submitFromOptions]

@[simp] theorem submitFromOptions_uncaught (net : Option GNENet) :
    (submitFromOptions x net).uncaught = none := rfl

@[simp] theorem submitFromOptions_oc (net : Option GNENet) :
    (submitFromOptions x net).exec.oc = x.oc := by
  simp [submitFromOptions]

@[simp] theorem submitFromOptions_myFile (net : Option GNENet) :
    (submitFromOptions x net).exec.myFile = x.myFile := by
  simp [submitFromOptions]

@[simp] theorem runCatchProcessError_oc (what : String) (net : Option GNENet) :
    (runCatchProcessError x what net).oc = x.oc := by
  unfold runCatchProcessError WRITE_ERROR; simp only []; split <;> simp

@[simp] theorem runCatchProcessError_myFile (what : String) (net : Option GNENet) :
    (runCatchProcessError x what net).myFile = x.myFile := by
  unfold runCatchProcessError WRITE_ERROR; simp only []; split <;> simp

@[simp] theorem runCatchProcessError_trace (what : String) (net : Option GNENet) :
    (runCatchProcessError x what net).trace
      = x.trace ++ ((if what ≠ "Process Error" ∧ what ≠ "" then
            informActions x.errorInstance.retrieverRegistered .MT_ERROR what else []) ++
          (informActions x.errorInstance.retrieverRegistered .MT_ERROR
            "Failed to build network." ++ [.deleteNet net, .deleteNetBuilder])) := by
  unfold runCatchProcessError WRITE_ERROR; simp only []; split <;> simp_all

@[simp] theorem initOptionsCatch_trace (what : String) :
    (initOptionsCatch x what).trace
      = x.trace ++ ((if what ≠ "Process Error" ∧ what ≠ "" then
            informActions x.errorInstance.retrieverRegistered .MT_ERROR what else []) ++
          informActions x.errorInstance.retrieverRegistered .MT_ERROR
            "Failed to parse options.") := by
  unfold initOptionsCatch WRITE_ERROR; simp only []; split <;> simp_all

end BlockFacts

/-! ## The states of a run -/

section RunStates

variable (env : Env) (s : LoaderState)

@[simp] theorem atInit_trace : (atInit s).trace = registerActions := by
  simp [atInit, registerActions]

theorem atInit_registered :
    (atInit s).messageInstance.retrieverRegistered = true ∧
    (atInit s).warningInstance.retrieverRegistered = true ∧
    (atInit s).errorInstance.retrieverRegistered = true := by
  simp [atInit]

theorem atInit_members :
    (atInit s).args = s.args ∧ (atInit s).myFile = s.myFile ∧
    (atInit s).myLoadNet = s.myLoadNet ∧ (atInit s).myNewNet = s.myNewNet := by
  simp [atInit]

theorem afterInit_grows (ks : List ActionKind) (hk : ∀ k ∈ initKinds, k ∈ ks) :
    Grows ks (atInit s) (afterInit env s).1 :=
  (Grows.refl _ _).thenInit env hk

theorem afterChecks_grows (ks : List ActionKind) (hk : ∀ k ∈ checkKinds, k ∈ ks) :
    Grows ks ((afterInit env s).1.log .initOutputOptions) (afterChecks env s).1 :=
  (Grows.refl _ _).thenChecks env hk

theorem afterImport_grows (ks : List ActionKind) (hk : ∀ k ∈ importKinds, k ∈ ks) :
    Grows ks (atBranch env s) (afterImport env s).exec :=
  (Grows.refl _ _).thenImport env _ hk

@[simp] theorem afterInit_trace :
    (afterInit env s).1.trace = registerActions ++ initSeg env s := by
  rw [(afterInit_grows env s initKinds (fun _ h => h)).trace_eq, atInit_trace, initSeg]

@[simp] theorem afterChecks_trace :
    (afterChecks env s).1.trace
      = registerActions ++ (initSeg env s ++ .initOutputOptions :: checkSeg env s) := by
  rw [(afterChecks_grows env s checkKinds (fun _ h => h)).trace_eq, checkSeg]
  simp

theorem kind_of_mem_initSeg {a : Action} (h : a ∈ initSeg env s) : a.kind ∈ initKinds :=
  (afterInit_grows env s initKinds (fun _ h => h)).kind_mem h

theorem kind_of_mem_checkSeg {a : Action} (h : a ∈ checkSeg env s) : a.kind ∈ checkKinds :=
  (afterChecks_grows env s checkKinds (fun _ h => h)).kind_mem h

theorem kind_of_mem_importSeg {a : Action} (h : a ∈ importSeg env s) :
    a.kind ∈ importKinds :=
  (afterImport_grows env s importKinds (fun _ h => h)).kind_mem h

/-- Up to the branch on `myNewNet` the members and the registrations are those of
`atInit`. -/
theorem afterInit_keeps :
    (afterInit env s).1.args = s.args ∧ (afterInit env s).1.myFile = s.myFile ∧
    (afterInit env s).1.myLoadNet = s.myLoadNet ∧ (afterInit env s).1.myNewNet = s.myNewNet ∧
    (afterInit env s).1.messageInstance.retrieverRegistered = true ∧
    (afterInit env s).1.warningInstance.retrieverRegistered = true ∧
    (afterInit env s).1.errorInstance.retrieverRegistered = true := by
  obtain ⟨_, a, b, c, d, e, f⟩ := afterInit_grows env s initKinds (fun _ h => h)
  have m := atInit_members s
  have r := atInit_registered s
  refine ⟨a.trans m.1, ?_, b.trans m.2.2.1, c.trans m.2.2.2, d.trans r.1, e.trans r.2.1,
    f.trans r.2.2⟩
  simp [afterInit, m.2.1]

theorem afterChecks_keeps :
    (afterChecks env s).1.args = s.args ∧ (afterChecks env s).1.myFile = s.myFile ∧
    (afterChecks env s).1.myLoadNet = s.myLoadNet ∧
    (afterChecks env s).1.myNewNet = s.myNewNet ∧
    (afterChecks env s).1.messageInstance.retrieverRegistered = true ∧
    (afterChecks env s).1.warningInstance.retrieverRegistered = true ∧
    (afterChecks env s).1.errorInstance.retrieverRegistered = true := by
  obtain ⟨_, a, b, c, d, e, f⟩ := afterChecks_grows env s checkKinds (fun _ h => h)
  have k := afterInit_keeps env s
  simp only [log_args, log_myLoadNet, log_myNewNet, log_regM, log_regW, log_regE] at a b c d e f
  refine ⟨a.trans k.1, ?_, b.trans k.2.2.1, c.trans k.2.2.2.1, d.trans k.2.2.2.2.1,
    e.trans k.2.2.2.2.2.1, f.trans k.2.2.2.2.2.2⟩
  simp [afterChecks, k.2.1]

@[simp] theorem atGeo_trace :
    (atGeo env s).trace
      = registerActions ++ (initSeg env s ++ .initOutputOptions :: (checkSeg env s ++
          [.clear .MT_ERROR, .clear .MT_WARNING, .clear .MT_MESSAGE, .initRandGlobal])) := by
  simp [atGeo]

theorem atGeo_keeps :
    (atGeo env s).args = s.args ∧ (atGeo env s).myFile = s.myFile ∧
    (atGeo env s).myLoadNet = s.myLoadNet ∧ (atGeo env s).myNewNet = s.myNewNet ∧
    (atGeo env s).messageInstance.retrieverRegistered = true ∧
    (atGeo env s).warningInstance.retrieverRegistered = true ∧
    (atGeo env s).errorInstance.retrieverRegistered = true ∧
    (atGeo env s).errorInstance.wasInformed = false ∧
    (atGeo env s).oc = (afterChecks env s).1.oc := by
  have k := afterChecks_keeps env s
  simp [atGeo, k]

@[simp] theorem afterGeo_trace :
    (afterGeo env s).trace
      = registerActions ++ (initSeg env s ++ .initOutputOptions :: (checkSeg env s ++
          (.clear .MT_ERROR :: .clear .MT_WARNING :: .clear .MT_MESSAGE :: .initRandGlobal ::
            .geoConvInit (atGeo env s).oc ::
            diagActions true true true (env.geoConvInit (atGeo env s).oc).diags))) := by
  have k := atGeo_keeps env s
  simp [afterGeo, k]

theorem afterGeo_keeps :
    (afterGeo env s).args = s.args ∧ (afterGeo env s).myFile = s.myFile ∧
    (afterGeo env s).myLoadNet = s.myLoadNet ∧ (afterGeo env s).myNewNet = s.myNewNet ∧
    (afterGeo env s).messageInstance.retrieverRegistered = true ∧
    (afterGeo env s).warningInstance.retrieverRegistered = true ∧
    (afterGeo env s).errorInstance.retrieverRegistered = true ∧
    (afterGeo env s).errorInstance.wasInformed
      = hasError (env.geoConvInit (atGeo env s).oc).diags ∧
    (afterGeo env s).oc = (env.geoConvInit (atGeo env s).oc).oc := by
  have k := atGeo_keeps env s
  simp [afterGeo, k]

@[simp] theorem atBranch_trace :
    (atBranch env s).trace
      = registerActions ++ (initSeg env s ++ .initOutputOptions :: (checkSeg env s ++
          (.clear .MT_ERROR :: .clear .MT_WARNING :: .clear .MT_MESSAGE :: .initRandGlobal ::
            .geoConvInit (atGeo env s).oc ::
            (diagActions true true true (env.geoConvInit (atGeo env s).oc).diags ++
              branchActions (afterGeo env s).oc)))) := by
  simp [atBranch, branchActions]

theorem atBranch_keeps :
    (atBranch env s).args = s.args ∧ (atBranch env s).myFile = s.myFile ∧
    (atBranch env s).myLoadNet = s.myLoadNet ∧ (atBranch env s).myNewNet = s.myNewNet ∧
    (atBranch env s).messageInstance.retrieverRegistered = true ∧
    (atBranch env s).warningInstance.retrieverRegistered = true ∧
    (atBranch env s).errorInstance.retrieverRegistered = true ∧
    (atBranch env s).errorInstance.wasInformed
      = hasError (env.geoConvInit (atGeo env s).oc).diags ∧
    (atBranch env s).oc = (afterGeo env s).oc := by
  have k := afterGeo_keeps env s
  simp [atBranch, k]

@[simp] theorem afterImport_trace :
    (afterImport env s).exec.trace = (atBranch env s).trace ++ importSeg env s := by
  rw [(afterImport_grows env s importKinds (fun _ h => h)).trace_eq, importSeg]

theorem afterImport_registered :
    (afterImport env s).exec.messageInstance.retrieverRegistered = true ∧
    (afterImport env s).exec.warningInstance.retrieverRegistered = true ∧
    (afterImport env s).exec.errorInstance.retrieverRegistered = true := by
  obtain ⟨_, _, _, _, d, e, f⟩ := afterImport_grows env s importKinds (fun _ h => h)
  have k := atBranch_keeps env s
  exact ⟨d.trans k.2.2.2.2.1, e.trans k.2.2.2.2.2.1, f.trans k.2.2.2.2.2.2.1⟩

end RunStates

/-! ## The shape of the trace of a run -/

section Shape

variable (env : Env) (s : LoaderState)

theorem kinds_diagActions (ks : List ActionKind) (hd : HasDiagKinds ks) (rm rw re : Bool)
    (ds : List Diagnostic) : ∀ a ∈ diagActions rm rw re ds, a.kind ∈ ks := by
  intro a ha
  rcases kind_of_mem_diagActions ha with k | k | k <;> rw [k]
  · exact hd.1
  · exact hd.2.1
  · exact hd.2.2

theorem kinds_informActions (ks : List ActionKind) (hd : HasDiagKinds ks) (r : Bool)
    (t : MsgType) (msg : String) : ∀ a ∈ informActions r t msg, a.kind ∈ ks := by
  have := kinds_diagActions ks hd r r r [⟨t, msg⟩]
  simp only [diagActions, List.append_nil] at this
  cases t <;> simpa using this

theorem kinds_initSeg (ks : List ActionKind) (hk : ∀ k ∈ initKinds, k ∈ ks) :
    ∀ a ∈ initSeg env s, a.kind ∈ ks :=
  fun _ h => hk _ (kind_of_mem_initSeg env s h)

theorem kinds_checkSeg (ks : List ActionKind) (hk : ∀ k ∈ checkKinds, k ∈ ks) :
    ∀ a ∈ checkSeg env s, a.kind ∈ ks :=
  fun _ h => hk _ (kind_of_mem_checkSeg env s h)

theorem kinds_importSeg (ks : List ActionKind) (hk : ∀ k ∈ importKinds, k ∈ ks) :
    ∀ a ∈ importSeg env s, a.kind ∈ ks :=
  fun _ h => hk _ (kind_of_mem_importSeg env s h)

theorem kinds_branchActions (ks : List ActionKind) (hr : ActionKind.read ∈ ks)
    (hv : ActionKind.setValidation ∈ ks) (hb : ActionKind.builder ∈ ks) (oc : OptionsCont) :
    ∀ a ∈ branchActions oc, a.kind ∈ ks := by
  simp [branchActions, Action.kind, hr, hv, hb]

theorem atBranch_grows (ks : List ActionKind) (hk : ∀ k ∈ preludeKinds, k ∈ ks) :
    Grows ks (atInit s) (atBranch env s) := by
  have hd : HasDiagKinds ks :=
    ⟨hk .inform (by simp [preludeKinds]), hk .message (by simp [preludeKinds]),
      hk .signal (by simp [preludeKinds])⟩
  have hr : ActionKind.read ∈ ks := hk _ (by simp [preludeKinds])
  have hb : ActionKind.builder ∈ ks := hk _ (by simp [preludeKinds])
  have hc : ActionKind.clear ∈ ks := hk _ (by simp [preludeKinds])
  have h₁ : Grows ks (atInit s) (afterChecks env s).1 :=
    (((Grows.refl ks (atInit s)).thenInit env (fun k h => hk k (by
      revert k; decide))).thenLog .initOutputOptions
      (hk _ (by simp [Action.kind, preludeKinds]))).thenChecks env (fun k h => hk k (by
      revert k; decide))
  have h₂ : Grows ks (atInit s) (afterGeo env s) :=
    ((((h₁.thenClear .MT_ERROR hc).thenClear .MT_WARNING hc).thenClear .MT_MESSAGE hc).thenLog
      .initRandGlobal (hk _ (by simp [Action.kind, preludeKinds]))).thenCall
      (.geoConvInit _) _ (hk _ (by simp [Action.kind, preludeKinds])) hd
  exact (((((h₂.thenLog (.getString _ _) (by simpa [Action.kind] using hr)).thenLog
    (.getString _ _) (by simpa [Action.kind] using hr)).thenLog (.setValidation _ _)
    (hk _ (by simp [Action.kind, preludeKinds]))).thenLog (.getBool _ _)
    (by simpa [Action.kind] using hr)).thenLog .newNBNetBuilder
    (by simpa [Action.kind] using hb)).thenLog (.applyOptions _)
    (by simpa [Action.kind] using hb)

theorem hasShape_submit {ks : List ActionKind} {x : Exec} (h : Grows ks (atInit s) x)
    (net : Option GNENet) (g : String) (v : Bool) :
    HasShape ks ⟨submitEndAndCleanup x net g v, none⟩ := by
  obtain ⟨⟨body, e, k⟩, _⟩ := h
  refine ⟨body, k, Or.inl ⟨net, g, v, rfl, ?_⟩⟩
  simp [e]

theorem hasShape_submitFromOptions {ks : List ActionKind} {x : Exec}
    (h : Grows ks (atInit s) x) (hr : ActionKind.read ∈ ks) (net : Option GNENet) :
    HasShape ks (submitFromOptions x net) :=
  hasShape_submit s ((h.thenLog (.getString _ _) (by simpa [Action.kind] using hr)).thenLog
    (.getBool _ _) (by simpa [Action.kind] using hr)) net _ _

theorem hasShape_uncaught {ks : List ActionKind} {x : Exec} (h : Grows ks (atInit s) x)
    (t : Thrown) : HasShape ks ⟨x, some t⟩ := by
  obtain ⟨⟨body, e, k⟩, _⟩ := h
  exact ⟨body, k, Or.inr ⟨by simp, by simp [e]⟩⟩

theorem run_shape (ks : List ActionKind) (hk : ∀ k ∈ preludeKinds, k ∈ ks)
    (hi : s.myNewNet = false → ∀ k ∈ importKinds ++ catchKinds, k ∈ ks) :
    HasShape ks (run env s) := by
  have hd : HasDiagKinds ks :=
    ⟨hk .inform (by simp [preludeKinds]), hk .message (by simp [preludeKinds]),
      hk .signal (by simp [preludeKinds])⟩
  have hr : ActionKind.read ∈ ks := hk _ (by simp [preludeKinds])
  have hc : ActionKind.clear ∈ ks := hk _ (by simp [preludeKinds])
  have gI : Grows ks (atInit s) (afterInit env s).1 :=
    (Grows.refl ks (atInit s)).thenInit env (fun k h => hk k (by revert k; decide))
  have gC : Grows ks (atInit s) (afterChecks env s).1 :=
    (gI.thenLog .initOutputOptions (hk _ (by simp [Action.kind, preludeKinds]))).thenChecks
      env (fun k h => hk k (by revert k; decide))
  have gG : Grows ks (atInit s) (afterGeo env s) :=
    ((((gC.thenClear .MT_ERROR hc).thenClear .MT_WARNING hc).thenClear .MT_MESSAGE hc).thenLog
      .initRandGlobal (hk _ (by simp [Action.kind, preludeKinds]))).thenCall
      (.geoConvInit _) _ (hk _ (by simp [Action.kind, preludeKinds])) hd
  have gB := atBranch_grows env s ks hk
  rw [run_eq]
  split
  · exact hasShape_submit s gI _ _ _
  · split
    · exact hasShape_submit s (gC.thenError _ hd) _ _ _
    · split
      · exact hasShape_submit s (gG.thenError _ hd) _ _ _
      · split
        · exact hasShape_submitFromOptions s (gB.thenLog (.newGNENet _)
            (hk _ (by simp [Action.kind, preludeKinds]))) hr _
        · rename_i hnew
          have hnew' : s.myNewNet = false := by
            have := (atBranch_keeps env s).2.2.2.1
            rw [this] at hnew
            simpa using hnew
          have hi' := hi hnew'
          have gT : Grows ks (atInit s) (afterImport env s).exec :=
            gB.thenImport env _ (fun k h => hi' k (by simp [h]))
          have hdel : ActionKind.delete ∈ ks := hi' _ (by simp [catchKinds])
          split
          · exact hasShape_submitFromOptions s gT hr _
          · exact hasShape_submitFromOptions s
              (gT.thenCatchBuild _ _ (fun k h => hi' k (by simp [h]))) hr _
          · split
            · exact hasShape_uncaught s (gT.thenError _ hd) _
            · exact hasShape_submitFromOptions s (((gT.thenError _ hd).thenLog (.deleteNet _)
                (by simpa [Action.kind] using hdel)).thenLog .deleteNetBuilder
                (by simpa [Action.kind] using hdel)) hr _
          · exact hasShape_uncaught s gT _

end Shape



/-! ## Reading events off a trace -/

section Reading

@[simp] theorem events_append (l₁ l₂ : List Action) :
    events (l₁ ++ l₂) = events l₁ ++ events l₂ := by
  simp [events]

@[simp] theorem loadResults_append (l₁ l₂ : List GUIEvent) :
    loadResults (l₁ ++ l₂) = loadResults l₁ ++ loadResults l₂ := by
  simp [loadResults]

@[simp] theorem errorMessages_append (l₁ l₂ : List GUIEvent) :
    errorMessages (l₁ ++ l₂) = errorMessages l₁ ++ errorMessages l₂ := by
  simp [errorMessages]

@[simp] theorem events_nil : events [] = [] := rfl

@[simp] theorem loadResults_nil : loadResults [] = [] := rfl

@[simp] theorem errorMessages_nil : errorMessages [] = [] := rfl

@[simp] theorem events_cons (a : Action) (l : List Action) :
    events (a :: l) = a.event?.toList ++ events l := by
  cases h : a.event? <;> simp [events, List.filterMap_cons, h]

@[simp] theorem loadResults_cons (e : GUIEvent) (l : List GUIEvent) :
    loadResults (e :: l) = e.loadResult?.toList ++ loadResults l := by
  cases h : e.loadResult? <;> simp [loadResults, List.filterMap_cons, h]

@[simp] theorem errorMessages_cons (e : GUIEvent) (l : List GUIEvent) :
    errorMessages (e :: l) = e.errorText?.toList ++ errorMessages l := by
  cases h : e.errorText? <;> simp [errorMessages, List.filterMap_cons, h]

theorem loadResults_events_eq_nil {l : List Action} (h : ∀ a ∈ l, a.kind ≠ .result) :
    loadResults (events l) = [] := by
  induction l with
  | nil => rfl
  | cons a rest ih =>
    have hr := ih (fun b hb => h b (List.mem_cons_of_mem _ hb))
    have ha := h a (List.mem_cons_self _ _)
    cases a with
    | queueAdd e =>
      cases e with
      | message t m => simpa [events, loadResults, Action.event?, GUIEvent.loadResult?] using hr
      | networkLoaded n f g v => simp [Action.kind] at ha
    | _ => simpa [events, loadResults, Action.event?] using hr

theorem loadResults_events_of_kinds {l : List Action} (h : ∀ a ∈ l, a.kind ∈ bodyKinds) :
    loadResults (events l) = [] :=
  loadResults_events_eq_nil (fun a ha hk => by
    have := h a ha
    rw [hk] at this
    simp [bodyKinds] at this)

@[simp] theorem loadResults_events_registerActions :
    loadResults (events registerActions) = [] := rfl

@[simp] theorem loadResults_events_submitActions (net : Option GNENet) (f g : String)
    (v : Bool) : loadResults (events (submitActions net f g v)) = [net] := rfl

end Reading

/-! ## What the logged calls say about the outcome of a block -/

section Logged

variable (env : Env) (x : Exec) (s : LoaderState)

theorem initOptions_calls_getOptions :
    ∃ rest, newActions x (initOptions env x).1
      = .getOptions x.args (prepareOptions env x).oc :: rest := by
  unfold initOptions newActions
  simp only []
  repeat' split
  all_goals simp

theorem initOptions_snd_of_parsed
    (h : (env.getOptions x.args (prepareOptions env x).oc).result = none) :
    (initOptions env x).2 = true := by
  unfold initOptions
  simp only [prepareOptions_args, h]
  split <;> rfl

theorem checkAllOptions_false_logged (h : (checkAllOptions env x).2 = false) :
    ∃ f oc, Action.checkOptions f oc ∈ newActions x (checkAllOptions env x).1 ∧
      (env.checkOptions f oc).result = false := by
  revert h
  unfold checkAllOptions checkFrame newActions
  simp only []
  repeat' split
  all_goals simp_all [Action.kind]
  all_goals aesop

theorem checkAllOptions_true_logged (h : (checkAllOptions env x).2 = true) (f : Frame)
    (oc : OptionsCont) (hm : Action.checkOptions f oc ∈ newActions x (checkAllOptions env x).1) :
    (env.checkOptions f oc).result = true := by
  revert h hm
  unfold checkAllOptions checkFrame newActions
  simp only []
  repeat' split
  all_goals simp_all [Action.kind]
  all_goals aesop

end Logged

section LoggedInRun

variable (env : Env) (s : LoaderState)

theorem getOptions_mem_initSeg :
    Action.getOptions s.args (prepareOptions env (atInit s)).oc ∈ initSeg env s := by
  obtain ⟨rest, h⟩ := initOptions_calls_getOptions env (atInit s)
  rw [initSeg, afterInit, h, (atInit_members s).1]
  exact List.mem_cons_self _ _

theorem afterInit_snd_of_parsed
    (h : (env.getOptions s.args (prepareOptions env (atInit s)).oc).result = none) :
    (afterInit env s).2 = true := by
  rw [← (atInit_members s).1] at h
  exact initOptions_snd_of_parsed env (atInit s) h

theorem afterChecks_false_logged (h : (afterChecks env s).2 = false) :
    ∃ f oc, Action.checkOptions f oc ∈ checkSeg env s ∧
      (env.checkOptions f oc).result = false :=
  checkAllOptions_false_logged env _ h

theorem afterChecks_true_logged (h : (afterChecks env s).2 = true) (f : Frame)
    (oc : OptionsCont) (hm : Action.checkOptions f oc ∈ checkSeg env s) :
    (env.checkOptions f oc).result = true :=
  checkAllOptions_true_logged env _ h f oc hm

@[simp] theorem loadResults_events_initSeg : loadResults (events (initSeg env s)) = [] :=
  loadResults_events_of_kinds (kinds_initSeg env s bodyKinds (by decide))

@[simp] theorem loadResults_events_checkSeg : loadResults (events (checkSeg env s)) = [] :=
  loadResults_events_of_kinds (kinds_checkSeg env s bodyKinds (by decide))

@[simp] theorem loadResults_events_importSeg : loadResults (events (importSeg env s)) = [] :=
  loadResults_events_of_kinds (kinds_importSeg env s bodyKinds (by decide))

@[simp] theorem loadResults_events_diagActions (rm rw re : Bool) (ds : List Diagnostic) :
    loadResults (events (diagActions rm rw re ds)) = [] :=
  loadResults_events_of_kinds
    (kinds_diagActions bodyKinds (by simp [HasDiagKinds, bodyKinds]) rm rw re ds)

@[simp] theorem loadResults_events_informActions (r : Bool) (t : MsgType) (msg : String) :
    loadResults (events (informActions r t msg)) = [] :=
  loadResults_events_of_kinds
    (kinds_informActions bodyKinds (by simp [HasDiagKinds, bodyKinds]) r t msg)

@[simp] theorem loadResults_events_branchActions (oc : OptionsCont) :
    loadResults (events (branchActions oc)) = [] := rfl

theorem run_of_init_failed (hi : (afterInit env s).2 = false) :
    run env s = ⟨submitEndAndCleanup (afterInit env s).1 none env.defaultGuiSettingsFile
      env.defaultViewportFromRegistry, none⟩ := by
  rw [run_eq]; simp [hi]

theorem run_of_checks_failed (hi : (afterInit env s).2 = true)
    (hc : (afterChecks env s).2 = false) :
    run env s = ⟨submitEndAndCleanup
      (WRITE_ERROR (afterChecks env s).1 "Invalid Options. Nothing loaded") none
      env.defaultGuiSettingsFile env.defaultViewportFromRegistry, none⟩ := by
  rw [run_eq]; simp [hi, hc]

theorem run_of_geo_failed (hi : (afterInit env s).2 = true)
    (hc : (afterChecks env s).2 = true)
    (hg : (env.geoConvInit (atGeo env s).oc).result = false) :
    run env s = ⟨submitEndAndCleanup
      (WRITE_ERROR (afterGeo env s) "Could not build projection!") none
      env.defaultGuiSettingsFile env.defaultViewportFromRegistry, none⟩ := by
  rw [run_eq]; simp [hi, hc, hg]

theorem run_of_new_net (hi : (afterInit env s).2 = true)
    (hc : (afterChecks env s).2 = true)
    (hg : (env.geoConvInit (atGeo env s).oc).result = true) (hn : s.myNewNet = true) :
    run env s = submitFromOptions ((atBranch env s).log (.newGNENet ⟨[.applyOptions]⟩))
      (some ⟨⟨[.applyOptions]⟩, false⟩) := by
  rw [run_eq]; simp [hi, hc, hg, (atBranch_keeps env s).2.2.2.1, hn]

theorem run_of_import (hi : (afterInit env s).2 = true)
    (hc : (afterChecks env s).2 = true)
    (hg : (env.geoConvInit (atGeo env s).oc).result = true) (hn : s.myNewNet = false) :
    run env s =
      match (afterImport env s).thrown with
      | none => submitFromOptions (afterImport env s).exec (afterImport env s).net
      | some (.processError what) =>
        submitFromOptions
          (runCatchProcessError (afterImport env s).exec what (afterImport env s).net) none
      | some (.stdException what) =>
        if env.debugBuild then
          ⟨WRITE_ERROR (afterImport env s).exec what, some (.stdException what)⟩
        else
          submitFromOptions
            (((WRITE_ERROR (afterImport env s).exec what).log
              (.deleteNet (afterImport env s).net)).log .deleteNetBuilder) none
      | some .other => ⟨(afterImport env s).exec, some .other⟩ := by
  rw [run_eq]; simp [hi, hc, hg, (atBranch_keeps env s).2.2.2.1, hn]

theorem run_new_net_result (hnew : s.myNewNet = true)
    (hparse : ∀ args oc, Action.getOptions args oc ∈ (run env s).exec.trace →
      (env.getOptions args oc).result = none)
    (hcheck : ∀ f oc, Action.checkOptions f oc ∈ (run env s).exec.trace →
      (env.checkOptions f oc).result = true)
    (hgeo : ∀ oc, Action.geoConvInit oc ∈ (run env s).exec.trace →
      (env.geoConvInit oc).result = true) :
    loadResults (events (run env s).exec.trace) = [some ⟨⟨[.applyOptions]⟩, false⟩] := by
  have hI := getOptions_mem_initSeg env s
  cases hi : (afterInit env s).2 with
  | false =>
    rw [run_of_init_failed env s hi] at hparse
    have := afterInit_snd_of_parsed env s (hparse _ _ (by simp [hI]))
    simp [this] at hi
  | true =>
    cases hc : (afterChecks env s).2 with
    | false =>
      rw [run_of_checks_failed env s hi hc] at hcheck
      obtain ⟨f, oc, hm, hr⟩ := afterChecks_false_logged env s hc
      have := hcheck f oc (by simp [WRITE_ERROR, hm])
      simp [this] at hr
    | true =>
      cases hg : (env.geoConvInit (atGeo env s).oc).result with
      | false =>
        rw [run_of_geo_failed env s hi hc hg] at hgeo
        have := hgeo (atGeo env s).oc (by simp [WRITE_ERROR])
        simp [this] at hg
      | true =>
        rw [run_of_new_net env s hi hc hg hnew]
        simp [submitActions, registerActions, Action.event?, GUIEvent.loadResult?]

end LoggedInRun

/-! ## The import block -/

section ImportFacts

variable (env : Env) (x : Exec) (nb : NBNetBuilder)

@[simp] theorem clearIgnoredErrors_oc : (clearIgnoredErrors x).oc = x.oc := by
  unfold clearIgnoredErrors; simp only []; split <;> simp

@[simp] theorem clearIgnoredErrors_myFile : (clearIgnoredErrors x).myFile = x.myFile := by
  unfold clearIgnoredErrors; simp only []; split <;> simp

@[simp] theorem clearIgnoredErrors_errInformed :
    (clearIgnoredErrors x).errorInstance.wasInformed
      = (!(x.oc.getBool "ignore-errors") && x.errorInstance.wasInformed) := by
  unfold clearIgnoredErrors; simp only []; split <;> simp_all

@[simp] theorem clearIgnoredErrors_trace :
    (clearIgnoredErrors x).trace
      = x.trace ++ .getBool "ignore-errors" (x.oc.getBool "ignore-errors") ::
          (if x.oc.getBool "ignore-errors" then [.clear .MT_ERROR] else []) := by
  unfold clearIgnoredErrors; simp only []; split <;> simp_all

@[simp] theorem clearIgnoredErrors_regM :
    (clearIgnoredErrors x).messageInstance.retrieverRegistered
      = x.messageInstance.retrieverRegistered := by
  unfold clearIgnoredErrors; simp only []; split <;> simp

@[simp] theorem clearIgnoredErrors_regW :
    (clearIgnoredErrors x).warningInstance.retrieverRegistered
      = x.warningInstance.retrieverRegistered := by
  unfold clearIgnoredErrors; simp only []; split <;> simp

@[simp] theorem clearIgnoredErrors_regE :
    (clearIgnoredErrors x).errorInstance.retrieverRegistered
      = x.errorInstance.retrieverRegistered := by
  unfold clearIgnoredErrors; simp only []; split <;> simp

@[simp] theorem resolveFile_oc : (resolveFile x).oc = x.oc := by
  unfold resolveFile; simp only []; repeat' split
  all_goals simp

@[simp] theorem resolveFile_myFile :
    (resolveFile x).myFile
      = if x.myFile = "" then
          if x.oc.isSet "configuration-file" then x.oc.getString "configuration-file"
          else if x.oc.isSet "sumo-net-file" then x.oc.getString "sumo-net-file"
          else ""
        else x.myFile := by
  unfold resolveFile; simp only []; repeat' split
  all_goals simp_all

theorem resolveFile_trace :
    (resolveFile x).trace
      = x.trace ++
        (if x.myFile = "" then
          .isSet "configuration-file" (x.oc.isSet "configuration-file") ::
            (if x.oc.isSet "configuration-file" then
              [.getString "configuration-file" (x.oc.getString "configuration-file")]
            else
              .isSet "sumo-net-file" (x.oc.isSet "sumo-net-file") ::
                (if x.oc.isSet "sumo-net-file" then
                  [.getString "sumo-net-file" (x.oc.getString "sumo-net-file")]
                else []))
        else []) := by
  unfold resolveFile; simp only []; repeat' split
  all_goals simp_all

@[simp] theorem mem_resolveFile_trace {a : Action} (h : a.kind ≠ .read) :
    a ∈ (resolveFile x).trace ↔ a ∈ x.trace := by
  have hk : ∀ b ∈ newActions x (resolveFile x), b.kind ∈ [ActionKind.read] :=
    fun b hb => ((Grows.refl [ActionKind.read] x).thenResolve (by simp)).kind_mem hb
  rw [((Grows.refl [ActionKind.read] x).thenResolve (by simp)).trace_eq, List.mem_append]
  constructor
  · rintro (h' | h')
    · exact h'
    · exact absurd (by simpa using hk a h') h
  · exact Or.inl

theorem import_thrown_of_logged (thr : Thrown)
    (h : ∃ oc,
      (Action.niLoad oc ∈ newActions x (importNetwork env x nb).exec ∧
        (env.load oc).result = some thr) ∨
      (Action.nbCompute oc ∈ newActions x (importNetwork env x nb).exec ∧
        (env.compute oc).result = some thr) ∨
      (Action.computeAndUpdate oc ∈ newActions x (importNetwork env x nb).exec ∧
        (env.computeAndUpdate oc).result = some thr)) :
    (importNetwork env x nb).thrown = some thr := by
  obtain ⟨oc, h⟩ := h
  revert h
  unfold importNetwork buildNet WRITE_MESSAGE newActions
  simp only []
  repeat' split
  all_goals simp_all [Action.kind, resolveFile_trace]
  all_goals aesop

theorem import_success (h : (importNetwork env x nb).thrown = none) :
    ∃ n, (importNetwork env x nb).net = some n ∧
      Action.newGNENet n.netBuilder ∈ newActions x (importNetwork env x nb).exec ∧
      (importNetwork env x nb).exec.myFile
        = (if x.myFile = "" then
            if (importNetwork env x nb).exec.oc.isSet "configuration-file" then
              (importNetwork env x nb).exec.oc.getString "configuration-file"
            else if (importNetwork env x nb).exec.oc.isSet "sumo-net-file" then
              (importNetwork env x nb).exec.oc.getString "sumo-net-file"
            else ""
          else x.myFile) := by
  revert h
  unfold importNetwork buildNet WRITE_MESSAGE newActions
  simp only []
  repeat' split
  all_goals simp_all [Action.kind, resolveFile_trace]

theorem import_informed_throws
    (hign : Action.getBool "ignore-errors" true ∉ newActions x (importNetwork env x nb).exec)
    (herr : x.errorInstance.wasInformed = true ∨ ∃ oc,
      (Action.niLoad oc ∈ newActions x (importNetwork env x nb).exec ∧
        hasError (env.load oc).diags = true) ∨
      (Action.nbCompute oc ∈ newActions x (importNetwork env x nb).exec ∧
        hasError (env.compute oc).diags = true)) :
    (importNetwork env x nb).thrown ≠ none := by
  revert hign herr
  unfold importNetwork buildNet WRITE_MESSAGE newActions
  simp only []
  repeat' split
  all_goals simp_all [Action.kind, resolveFile_trace]
  all_goals aesop

end ImportFacts

/-! ## Results of a run -/

section Results

variable (env : Env) (s : LoaderState)

@[simp] theorem mem_initSeg_of_kind {a : Action} (h : a.kind ∉ initKinds) :
    a ∈ initSeg env s ↔ False :=
  iff_false_intro (fun hm => h (kind_of_mem_initSeg env s hm))

@[simp] theorem mem_checkSeg_of_kind {a : Action} (h : a.kind ∉ checkKinds) :
    a ∈ checkSeg env s ↔ False :=
  iff_false_intro (fun hm => h (kind_of_mem_checkSeg env s hm))

@[simp] theorem mem_importSeg_of_kind {a : Action} (h : a.kind ∉ importKinds) :
    a ∈ importSeg env s ↔ False :=
  iff_false_intro (fun hm => h (kind_of_mem_importSeg env s hm))

theorem afterImport_success (h : (afterImport env s).thrown = none) :
    ∃ n, (afterImport env s).net = some n ∧
      Action.newGNENet n.netBuilder ∈ importSeg env s ∧
      (afterImport env s).exec.myFile
        = (if s.myFile = "" then
            if (afterImport env s).exec.oc.isSet "configuration-file" then
              (afterImport env s).exec.oc.getString "configuration-file"
            else if (afterImport env s).exec.oc.isSet "sumo-net-file" then
              (afterImport env s).exec.oc.getString "sumo-net-file"
            else ""
          else s.myFile) := by
  have := import_success env (atBranch env s) ⟨[.applyOptions]⟩ h
  rwa [(atBranch_keeps env s).2.1] at this

theorem run_result_of_built (net : GNENet) (file g : String) (v : Bool)
    (h : Action.queueAdd (.networkLoaded (some net) file g v) ∈ (run env s).exec.trace) :
    Action.newGNENet net.netBuilder ∈ (run env s).exec.trace ∧
    g = (run env s).exec.oc.getString "gui-settings-file" ∧
    v = (run env s).exec.oc.getBool "registry-viewport" ∧
    file = (if s.myFile ≠ "" then s.myFile
      else if s.myNewNet then ""
      else if (run env s).exec.oc.isSet "configuration-file" then
        (run env s).exec.oc.getString "configuration-file"
      else if (run env s).exec.oc.isSet "sumo-net-file" then
        (run env s).exec.oc.getString "sumo-net-file"
      else "") := by
  have kB := atBranch_keeps env s
  cases hi : (afterInit env s).2 with
  | false =>
    rw [run_of_init_failed env s hi] at h
    simp [submitActions, registerActions, Action.kind, initKinds] at h
  | true =>
    cases hc : (afterChecks env s).2 with
    | false =>
      rw [run_of_checks_failed env s hi hc] at h
      simp [submitActions, registerActions, Action.kind, initKinds, checkKinds,
        WRITE_ERROR] at h
    | true =>
      cases hg : (env.geoConvInit (atGeo env s).oc).result with
      | false =>
        rw [run_of_geo_failed env s hi hc hg] at h
        simp [submitActions, registerActions, Action.kind, initKinds, checkKinds,
          WRITE_ERROR] at h
      | true =>
        cases hn : s.myNewNet with
        | true =>
          rw [run_of_new_net env s hi hc hg hn] at h ⊢
          simp [submitActions, registerActions, branchActions, Action.kind, initKinds,
            checkKinds] at h
          obtain ⟨rfl, rfl, rfl, rfl⟩ := h
          simp [kB.2.1]
          split <;> simp_all
        | false =>
          rw [run_of_import env s hi hc hg hn] at h ⊢
          cases ht : (afterImport env s).thrown with
          | none =>
            simp only [ht] at h ⊢
            obtain ⟨n, hnet, hmem, hfile⟩ := afterImport_success env s ht
            simp [submitActions, registerActions, branchActions, Action.kind, initKinds,
              checkKinds, importKinds, hnet] at h
            obtain ⟨rfl, rfl, rfl, rfl⟩ := h
            refine ⟨by simp [hmem], by simp, by simp, ?_⟩
            rw [hfile]
            by_cases hf : s.myFile = "" <;> simp [hf]
          | some t =>
            cases t with
            | processError what =>
              simp only [ht] at h
              simp [submitActions, registerActions, branchActions, Action.kind, initKinds,
                checkKinds, importKinds, afterImport_registered env s] at h
            | stdException what =>
              simp only [ht] at h
              split at h <;>
              simp [submitActions, registerActions, branchActions, Action.kind, initKinds,
                checkKinds, importKinds, WRITE_ERROR, afterImport_registered env s] at h
            | other =>
              simp only [ht] at h
              simp [submitActions, registerActions, branchActions, Action.kind, initKinds,
                checkKinds, importKinds] at h

theorem mem_errorMessages_events {m : String} {l : List Action} :
    m ∈ errorMessages (events l) ↔ Action.queueAdd (.message .MT_ERROR m) ∈ l := by
  induction l with
  | nil => simp
  | cons a rest ih =>
    cases a with
    | queueAdd e =>
      cases e with
      | message t m' =>
        cases t <;> simp [Action.event?, GUIEvent.errorText?, ih, eq_comm]
      | networkLoaded n f g v => simp [Action.event?, GUIEvent.errorText?, ih]
    | _ => simp [Action.event?, ih]

theorem path_of_checkFailed (h : CheckFailed env (run env s).exec.trace) :
    (afterInit env s).2 = true ∧ (afterChecks env s).2 = false := by
  obtain ⟨f, oc, hm, hr⟩ := h
  cases hi : (afterInit env s).2 with
  | false =>
    rw [run_of_init_failed env s hi] at hm
    simp [submitActions, registerActions, Action.kind, initKinds] at hm
  | true =>
    refine ⟨rfl, ?_⟩
    cases hc : (afterChecks env s).2 with
    | false => rfl
    | true =>
      have key : Action.checkOptions f oc ∈ checkSeg env s := by
        cases hg : (env.geoConvInit (atGeo env s).oc).result with
        | false =>
          rw [run_of_geo_failed env s hi hc hg] at hm
          simpa [submitActions, registerActions, Action.kind, initKinds, WRITE_ERROR] using hm
        | true =>
          cases hn : s.myNewNet with
          | true =>
            rw [run_of_new_net env s hi hc hg hn] at hm
            simpa [submitActions, registerActions, branchActions, Action.kind, initKinds]
              using hm
          | false =>
            rw [run_of_import env s hi hc hg hn] at hm
            split at hm
            all_goals try split at hm
            all_goals
              simpa [submitActions, registerActions, branchActions, Action.kind, initKinds,
                importKinds, WRITE_ERROR] using hm
      have := afterChecks_true_logged env s hc f oc key
      simp [this] at hr

theorem geoConvInit_mem_run {oc : OptionsCont}
    (hm : Action.geoConvInit oc ∈ (run env s).exec.trace) :
    (afterInit env s).2 = true ∧ (afterChecks env s).2 = true ∧ oc = (atGeo env s).oc := by
  cases hi : (afterInit env s).2 with
  | false =>
    rw [run_of_init_failed env s hi] at hm
    simp [submitActions, registerActions, Action.kind, initKinds] at hm
  | true =>
    cases hc : (afterChecks env s).2 with
    | false =>
      rw [run_of_checks_failed env s hi hc] at hm
      simp [submitActions, registerActions, Action.kind, initKinds, checkKinds,
        WRITE_ERROR] at hm
    | true =>
      refine ⟨rfl, rfl, ?_⟩
      cases hg : (env.geoConvInit (atGeo env s).oc).result with
      | false =>
        rw [run_of_geo_failed env s hi hc hg] at hm
        simpa [submitActions, registerActions, Action.kind, initKinds, checkKinds,
          WRITE_ERROR] using hm
      | true =>
        cases hn : s.myNewNet with
        | true =>
          rw [run_of_new_net env s hi hc hg hn] at hm
          simpa [submitActions, registerActions, branchActions, Action.kind, initKinds,
            checkKinds] using hm
        | false =>
          rw [run_of_import env s hi hc hg hn] at hm
          split at hm
          all_goals try split at hm
          all_goals
            simpa [submitActions, registerActions, branchActions, Action.kind, initKinds,
              checkKinds, importKinds, WRITE_ERROR] using hm

theorem path_of_projectionFailed (h : ProjectionFailed env (run env s).exec.trace) :
    (afterInit env s).2 = true ∧ (afterChecks env s).2 = true ∧
      (env.geoConvInit (atGeo env s).oc).result = false := by
  obtain ⟨oc, hm, hr⟩ := h
  obtain ⟨hi, hc, rfl⟩ := geoConvInit_mem_run env s hm
  exact ⟨hi, hc, hr⟩

theorem niLoad_mem_run {oc : OptionsCont}
    (hm : Action.niLoad oc ∈ (run env s).exec.trace) :
    (afterInit env s).2 = true ∧ (afterChecks env s).2 = true ∧
      (env.geoConvInit (atGeo env s).oc).result = true ∧ s.myNewNet = false ∧
      Action.niLoad oc ∈ importSeg env s := by
  cases hi : (afterInit env s).2 with
  | false =>
    rw [run_of_init_failed env s hi] at hm
    simp [submitActions, registerActions, Action.kind, initKinds] at hm
  | true =>
    cases hc : (afterChecks env s).2 with
    | false =>
      rw [run_of_checks_failed env s hi hc] at hm
      simp [submitActions, registerActions, Action.kind, initKinds, checkKinds,
        WRITE_ERROR] at hm
    | true =>
      cases hg : (env.geoConvInit (atGeo env s).oc).result with
      | false =>
        rw [run_of_geo_failed env s hi hc hg] at hm
        simp [submitActions, registerActions, Action.kind, initKinds, checkKinds,
          WRITE_ERROR] at hm
      | true =>
        cases hn : s.myNewNet with
        | true =>
          rw [run_of_new_net env s hi hc hg hn] at hm
          simp [submitActions, registerActions, branchActions, Action.kind, initKinds,
            checkKinds] at hm
        | false =>
          refine ⟨rfl, rfl, rfl, rfl, ?_⟩
          rw [run_of_import env s hi hc hg hn] at hm
          split at hm
          all_goals try split at hm
          all_goals
            simpa [submitActions, registerActions, branchActions, Action.kind, initKinds,
              checkKinds, WRITE_ERROR] using hm

theorem nbCompute_mem_run {oc : OptionsCont}
    (hm : Action.nbCompute oc ∈ (run env s).exec.trace) :
    (afterInit env s).2 = true ∧ (afterChecks env s).2 = true ∧
      (env.geoConvInit (atGeo env s).oc).result = true ∧ s.myNewNet = false ∧
      Action.nbCompute oc ∈ importSeg env s := by
  cases hi : (afterInit env s).2 with
  | false =>
    rw [run_of_init_failed env s hi] at hm
    simp [submitActions, registerActions, Action.kind, initKinds] at hm
  | true =>
    cases hc : (afterChecks env s).2 with
    | false =>
      rw [run_of_checks_failed env s hi hc] at hm
      simp [submitActions, registerActions, Action.kind, initKinds, checkKinds,
        WRITE_ERROR] at hm
    | true =>
      cases hg : (env.geoConvInit (atGeo env s).oc).result with
      | false =>
        rw [run_of_geo_failed env s hi hc hg] at hm
        simp [submitActions, registerActions, Action.kind, initKinds, checkKinds,
          WRITE_ERROR] at hm
      | true =>
        cases hn : s.myNewNet with
        | true =>
          rw [run_of_new_net env s hi hc hg hn] at hm
          simp [submitActions, registerActions, branchActions, Action.kind, initKinds,
            checkKinds] at hm
        | false =>
          refine ⟨rfl, rfl, rfl, rfl, ?_⟩
          rw [run_of_import env s hi hc hg hn] at hm
          split at hm
          all_goals try split at hm
          all_goals
            simpa [submitActions, registerActions, branchActions, Action.kind, initKinds,
              checkKinds, WRITE_ERROR] using hm

theorem computeAndUpdate_mem_run {oc : OptionsCont}
    (hm : Action.computeAndUpdate oc ∈ (run env s).exec.trace) :
    (afterInit env s).2 = true ∧ (afterChecks env s).2 = true ∧
      (env.geoConvInit (atGeo env s).oc).result = true ∧ s.myNewNet = false ∧
      Action.computeAndUpdate oc ∈ importSeg env s := by
  cases hi : (afterInit env s).2 with
  | false =>
    rw [run_of_init_failed env s hi] at hm
    simp [submitActions, registerActions, Action.kind, initKinds] at hm
  | true =>
    cases hc : (afterChecks env s).2 with
    | false =>
      rw [run_of_checks_failed env s hi hc] at hm
      simp [submitActions, registerActions, Action.kind, initKinds, checkKinds,
        WRITE_ERROR] at hm
    | true =>
      cases hg : (env.geoConvInit (atGeo env s).oc).result with
      | false =>
        rw [run_of_geo_failed env s hi hc hg] at hm
        simp [submitActions, registerActions, Action.kind, initKinds, checkKinds,
          WRITE_ERROR] at hm
      | true =>
        cases hn : s.myNewNet with
        | true =>
          rw [run_of_new_net env s hi hc hg hn] at hm
          simp [submitActions, registerActions, branchActions, Action.kind, initKinds,
            checkKinds] at hm
        | false =>
          refine ⟨rfl, rfl, rfl, rfl, ?_⟩
          rw [run_of_import env s hi hc hg hn] at hm
          split at hm
          all_goals try split at hm
          all_goals
            simpa [submitActions, registerActions, branchActions, Action.kind, initKinds,
              checkKinds, WRITE_ERROR] using hm

theorem path_of_importRaised {thr : Thrown}
    (h : ImportRaised env (run env s).exec.trace thr) :
    (afterInit env s).2 = true ∧ (afterChecks env s).2 = true ∧
      (env.geoConvInit (atGeo env s).oc).result = true ∧ s.myNewNet = false ∧
      (afterImport env s).thrown = some thr := by
  obtain ⟨oc, h⟩ := h
  rcases h with ⟨hm, hr⟩ | ⟨hm, hr⟩ | ⟨hm, hr⟩
  · obtain ⟨hi, hc, hg, hn, hs⟩ := niLoad_mem_run env s hm
    exact ⟨hi, hc, hg, hn, import_thrown_of_logged env _ _ thr ⟨oc, Or.inl ⟨hs, hr⟩⟩⟩
  · obtain ⟨hi, hc, hg, hn, hs⟩ := nbCompute_mem_run env s hm
    exact ⟨hi, hc, hg, hn, import_thrown_of_logged env _ _ thr ⟨oc, Or.inr (Or.inl ⟨hs, hr⟩)⟩⟩
  · obtain ⟨hi, hc, hg, hn, hs⟩ := computeAndUpdate_mem_run env s hm
    exact ⟨hi, hc, hg, hn, import_thrown_of_logged env _ _ thr ⟨oc, Or.inr (Or.inr ⟨hs, hr⟩)⟩⟩

theorem results_of_checkFailed (hi : (afterInit env s).2 = true)
    (hc : (afterChecks env s).2 = false) :
    loadResults (events (run env s).exec.trace) = [none] ∧
      "Invalid Options. Nothing loaded" ∈ errorMessages (events (run env s).exec.trace) := by
  rw [run_of_checks_failed env s hi hc, mem_errorMessages_events]
  simp [WRITE_ERROR, (afterChecks_keeps env s).2.2.2.2.2.2, informActions, submitActions,
    registerActions, Action.event?, GUIEvent.loadResult?]

theorem results_of_projectionFailed (hi : (afterInit env s).2 = true)
    (hc : (afterChecks env s).2 = true)
    (hg : (env.geoConvInit (atGeo env s).oc).result = false) :
    loadResults (events (run env s).exec.trace) = [none] ∧
      "Could not build projection!" ∈ errorMessages (events (run env s).exec.trace) := by
  rw [run_of_geo_failed env s hi hc hg, mem_errorMessages_events]
  simp [WRITE_ERROR, (afterGeo_keeps env s).2.2.2.2.2.2.1, informActions, submitActions,
    registerActions, Action.event?, GUIEvent.loadResult?]

theorem results_of_processError (hi : (afterInit env s).2 = true)
    (hc : (afterChecks env s).2 = true)
    (hg : (env.geoConvInit (atGeo env s).oc).result = true) (hn : s.myNewNet = false)
    (what : String) (ht : (afterImport env s).thrown = some (.processError what)) :
    loadResults (events (run env s).exec.trace) = [none] ∧
      "Failed to build network." ∈ errorMessages (events (run env s).exec.trace) ∧
      (what ≠ "" → what ≠ "Process Error" →
        what ∈ errorMessages (events (run env s).exec.trace)) := by
  rw [run_of_import env s hi hc hg hn]
  simp only [ht, mem_errorMessages_events]
  refine ⟨?_, ?_, ?_⟩
  · by_cases hw : what ≠ "Process Error" ∧ what ≠ "" <;>
      simp [hw, (afterImport_registered env s).2.2, informActions, submitActions,
        registerActions, Action.event?, GUIEvent.loadResult?]
  · simp [(afterImport_registered env s).2.2, informActions]
  · intro h₁ h₂
    simp [h₁, h₂, (afterImport_registered env s).2.2, informActions]

theorem results_of_stdException (hi : (afterInit env s).2 = true)
    (hc : (afterChecks env s).2 = true)
    (hg : (env.geoConvInit (atGeo env s).oc).result = true) (hn : s.myNewNet = false)
    (what : String) (ht : (afterImport env s).thrown = some (.stdException what))
    (hd : env.debugBuild = false) :
    loadResults (events (run env s).exec.trace) = [none] ∧
      what ∈ errorMessages (events (run env s).exec.trace) := by
  rw [run_of_import env s hi hc hg hn]
  simp only [ht, hd, mem_errorMessages_events]
  simp [WRITE_ERROR, (afterImport_registered env s).2.2, informActions, submitActions,
    registerActions, Action.event?, GUIEvent.loadResult?]

theorem run_failure_is_reported
    (h : CheckFailed env (run env s).exec.trace ∨
      ProjectionFailed env (run env s).exec.trace ∨
      (∃ what, ImportRaised env (run env s).exec.trace (.processError what)) ∨
      (env.debugBuild = false ∧
        ∃ what, ImportRaised env (run env s).exec.trace (.stdException what))) :
    loadResults (events (run env s).exec.trace) = [none] ∧
    (CheckFailed env (run env s).exec.trace →
      "Invalid Options. Nothing loaded" ∈ errorMessages (events (run env s).exec.trace)) ∧
    (ProjectionFailed env (run env s).exec.trace →
      "Could not build projection!" ∈ errorMessages (events (run env s).exec.trace)) ∧
    (∀ what, ImportRaised env (run env s).exec.trace (.processError what) →
      "Failed to build network." ∈ errorMessages (events (run env s).exec.trace) ∧
      (what ≠ "" → what ≠ "Process Error" →
        what ∈ errorMessages (events (run env s).exec.trace))) ∧
    (∀ what, ImportRaised env (run env s).exec.trace (.stdException what) →
      env.debugBuild = false → what ∈ errorMessages (events (run env s).exec.trace)) := by
  refine ⟨?_, ?_, ?_, ?_, ?_⟩
  · rcases h with h | h | ⟨what, h⟩ | ⟨hd, what, h⟩
    · obtain ⟨hi, hc⟩ := path_of_checkFailed env s h
      exact (results_of_checkFailed env s hi hc).1
    · obtain ⟨hi, hc, hg⟩ := path_of_projectionFailed env s h
      exact (results_of_projectionFailed env s hi hc hg).1
    · obtain ⟨hi, hc, hg, hn, ht⟩ := path_of_importRaised env s h
      exact (results_of_processError env s hi hc hg hn what ht).1
    · obtain ⟨hi, hc, hg, hn, ht⟩ := path_of_importRaised env s h
      exact (results_of_stdException env s hi hc hg hn what ht hd).1
  · intro h'
    obtain ⟨hi, hc⟩ := path_of_checkFailed env s h'
    exact (results_of_checkFailed env s hi hc).2
  · intro h'
    obtain ⟨hi, hc, hg⟩ := path_of_projectionFailed env s h'
    exact (results_of_projectionFailed env s hi hc hg).2
  · intro what h'
    obtain ⟨hi, hc, hg, hn, ht⟩ := path_of_importRaised env s h'
    exact (results_of_processError env s hi hc hg hn what ht).2
  · intro what h' hd
    obtain ⟨hi, hc, hg, hn, ht⟩ := path_of_importRaised env s h'
    exact (results_of_stdException env s hi hc hg hn what ht hd).2

theorem run_null_of_import_error (hnew : s.myNewNet = false)
    (hign : Action.getBool "ignore-errors" true ∉ (run env s).exec.trace)
    (herr : ∃ oc,
      (Action.geoConvInit oc ∈ (run env s).exec.trace ∧
        hasError (env.geoConvInit oc).diags = true) ∨
      (Action.niLoad oc ∈ (run env s).exec.trace ∧ hasError (env.load oc).diags = true) ∨
      (Action.nbCompute oc ∈ (run env s).exec.trace ∧
        hasError (env.compute oc).diags = true)) :
    ∀ r ∈ loadResults (events (run env s).exec.trace), r = none := by
  cases hi : (afterInit env s).2 with
  | false =>
    rw [run_of_init_failed env s hi]
    simp [submitActions, registerActions, Action.event?, GUIEvent.loadResult?]
  | true =>
    cases hc : (afterChecks env s).2 with
    | false => simp [(results_of_checkFailed env s hi hc).1]
    | true =>
      cases hg : (env.geoConvInit (atGeo env s).oc).result with
      | false => simp [(results_of_projectionFailed env s hi hc hg).1]
      | true =>
        cases ht : (afterImport env s).thrown with
        | none =>
          exfalso
          refine import_informed_throws env (atBranch env s) ⟨[.applyOptions]⟩ ?_ ?_ ht
          · intro hm
            apply hign
            rw [run_of_import env s hi hc hg hnew]
            simp only [ht]
            have : Action.getBool "ignore-errors" true ∈ importSeg env s := hm
            simp [this]
          · obtain ⟨oc, h | h | h⟩ := herr
            · obtain ⟨_, _, rfl⟩ := geoConvInit_mem_run env s h.1
              exact Or.inl ((atBranch_keeps env s).2.2.2.2.2.2.2.1.trans h.2)
            · exact Or.inr ⟨oc, Or.inl ⟨(niLoad_mem_run env s h.1).2.2.2.2, h.2⟩⟩
            · exact Or.inr ⟨oc, Or.inr ⟨(nbCompute_mem_run env s h.1).2.2.2.2, h.2⟩⟩
        | some t =>
          cases t with
          | processError what =>
            simp [(results_of_processError env s hi hc hg hnew what ht).1]
          | stdException what =>
            cases hd : env.debugBuild with
            | false => simp [(results_of_stdException env s hi hc hg hnew what ht hd).1]
            | true =>
              rw [run_of_import env s hi hc hg hnew]
              simp only [ht, hd]
              simp [WRITE_ERROR, registerActions, informActions, Action.event?,
                GUIEvent.loadResult?, (afterImport_registered env s).2.2]
          | other =>
            rw [run_of_import env s hi hc hg hnew]
            simp only [ht]
            simp [registerActions, Action.event?, GUIEvent.loadResult?]

end Results

/-! ## Requests and returning runs -/

theorem loadConfigOrNet_eq_run (env : Env) (s : LoaderState) (file : String)
    (isNet useStartupOptions newNet : Bool) :
    ∃ args, loadConfigOrNet env s file isNet useStartupOptions newNet
      = run env { s with myFile := file, myLoadNet := isNet, myNewNet := newNet,
                         args := args } := by
  unfold loadConfigOrNet
  simp only []
  split
  · exact ⟨[], rfl⟩
  · exact ⟨s.args, rfl⟩

theorem run_results_of_returned (env : Env) (s : LoaderState)
    (h : (run env s).uncaught = none) :
    (loadResults (events (run env s).exec.trace)).length = 1 := by
  obtain ⟨body, hb, hs⟩ := run_shape env s bodyKinds (by decide) (fun _ => by decide)
  rcases hs with ⟨net, g, v, _, ht⟩ | ⟨hu, _⟩
  · rw [ht]
    simp [loadResults_events_of_kinds hb]
  · exact absurd h hu

theorem run_uncaught_cases (env : Env) (s : LoaderState) (t : Thrown)
    (h : (run env s).uncaught = some t) :
    s.myNewNet = false ∧ (t = .other ∨ ∃ what, t = .stdException what ∧ env.debugBuild = true) := by
  have kB := (atBranch_keeps env s).2.2.2.1
  rw [run_eq] at h
  repeat' split at h
  all_goals simp_all
  exact Or.inr ⟨_, h.symm⟩

@[simp] theorem errorsWritten_informActions (r : Bool) (msg : String) :
    errorsWritten (informActions r .MT_ERROR msg) = [msg] := by
  cases r <;> rfl

/-! ## A network that was built -/

section Built

variable (env : Env) (s : LoaderState) (x : Exec) (nb : NBNetBuilder)

theorem import_net_of_created {nb' : NBNetBuilder}
    (h : Action.newGNENet nb' ∈ newActions x (importNetwork env x nb).exec) :
    ∃ u, (importNetwork env x nb).net = some ⟨nb', u⟩ := by
  revert h
  unfold importNetwork buildNet WRITE_MESSAGE newActions
  simp only []
  repeat' split
  all_goals simp_all [Action.kind, resolveFile_trace]
  all_goals aesop

theorem newGNENet_mem_run {nb' : NBNetBuilder}
    (hm : Action.newGNENet nb' ∈ (run env s).exec.trace) :
    (afterInit env s).2 = true ∧ (afterChecks env s).2 = true ∧
      (env.geoConvInit (atGeo env s).oc).result = true ∧
      ((s.myNewNet = true ∧ nb' = ⟨[.applyOptions]⟩) ∨
        (s.myNewNet = false ∧ Action.newGNENet nb' ∈ importSeg env s)) := by
  cases hi : (afterInit env s).2 with
  | false =>
    rw [run_of_init_failed env s hi] at hm
    simp [submitActions, registerActions, Action.kind, initKinds] at hm
  | true =>
    cases hc : (afterChecks env s).2 with
    | false =>
      rw [run_of_checks_failed env s hi hc] at hm
      simp [submitActions, registerActions, Action.kind, initKinds, checkKinds,
        WRITE_ERROR] at hm
    | true =>
      cases hg : (env.geoConvInit (atGeo env s).oc).result with
      | false =>
        rw [run_of_geo_failed env s hi hc hg] at hm
        simp [submitActions, registerActions, Action.kind, initKinds, checkKinds,
          WRITE_ERROR] at hm
      | true =>
        refine ⟨rfl, rfl, rfl, ?_⟩
        cases hn : s.myNewNet with
        | true =>
          rw [run_of_new_net env s hi hc hg hn] at hm
          left
          simpa [submitActions, registerActions, branchActions, Action.kind, initKinds,
            checkKinds] using hm
        | false =>
          right
          refine ⟨rfl, ?_⟩
          rw [run_of_import env s hi hc hg hn] at hm
          split at hm
          all_goals try split at hm
          all_goals
            simpa [submitActions, registerActions, branchActions, Action.kind, initKinds,
              checkKinds, WRITE_ERROR] using hm

theorem run_built_is_carried {nb' : NBNetBuilder}
    (hm : Action.newGNENet nb' ∈ (run env s).exec.trace)
    (hret : (run env s).uncaught = none)
    (hdel : ∀ n, Action.deleteNet (some n) ∉ (run env s).exec.trace) :
    ∃ u, Action.queueAdd (.networkLoaded (some ⟨nb', u⟩)
        (if s.myFile ≠ "" then s.myFile
          else if s.myNewNet then ""
          else if (run env s).exec.oc.isSet "configuration-file" then
            (run env s).exec.oc.getString "configuration-file"
          else if (run env s).exec.oc.isSet "sumo-net-file" then
            (run env s).exec.oc.getString "sumo-net-file"
          else "")
        ((run env s).exec.oc.getString "gui-settings-file")
        ((run env s).exec.oc.getBool "registry-viewport")) ∈ (run env s).exec.trace := by
  obtain ⟨hi, hc, hg, h | h⟩ := newGNENet_mem_run env s hm
  · obtain ⟨hn, rfl⟩ := h
    refine ⟨false, ?_⟩
    rw [run_of_new_net env s hi hc hg hn]
    have kB := atBranch_keeps env s
    by_cases hf : s.myFile = "" <;> simp [submitActions, kB.2.1, hf, hn]
  · obtain ⟨hn, hs⟩ := h
    obtain ⟨u, hnet⟩ := import_net_of_created env (atBranch env s) ⟨[.applyOptions]⟩ hs
    have hnet' : (afterImport env s).net = some ⟨nb', u⟩ := hnet
    refine ⟨u, ?_⟩
    rw [run_of_import env s hi hc hg hn] at hret hdel ⊢
    cases ht : (afterImport env s).thrown with
    | none =>
      obtain ⟨n, hn', _, hfile⟩ := afterImport_success env s ht
      simp only [ht]
      by_cases hf : s.myFile = "" <;> simp [submitActions, hnet', hfile, hf, hn]
    | some t =>
      exfalso
      cases t with
      | processError what =>
        simp only [ht] at hdel
        exact hdel ⟨nb', u⟩ (by simp [hnet'])
      | stdException what =>
        simp only [ht] at hdel hret
        cases hd : env.debugBuild with
        | true => simp [hd] at hret
        | false =>
          simp only [hd] at hdel
          exact hdel ⟨nb', u⟩ (by simp [hnet'])
      | other =>
        simp only [ht] at hret
        simp at hret

theorem mem_loadResults_events {r : Option GNENet} {l : List Action} :
    r ∈ loadResults (events l) ↔ ∃ f g v, Action.queueAdd (.networkLoaded r f g v) ∈ l := by
  induction l with
  | nil => simp
  | cons a rest ih =>
    cases a with
    | queueAdd e =>
      cases e with
      | message t m => simp [Action.event?, GUIEvent.loadResult?, ih]
      | networkLoaded n f g v =>
        simp only [events_cons, Action.event?, Option.toList, List.singleton_append,
          loadResults_cons, GUIEvent.loadResult?, List.mem_cons, ih, Action.queueAdd.injEq,
          GUIEvent.networkLoaded.injEq]
        constructor
        · rintro (rfl | ⟨f', g', v', h⟩)
          · exact ⟨f, g, v, Or.inl ⟨rfl, rfl, rfl, rfl⟩⟩
          · exact ⟨f', g', v', Or.inr h⟩
        · rintro ⟨f', g', v', (⟨rfl, _, _, _⟩ | h)⟩
          · exact Or.inl rfl
          · exact Or.inr ⟨f', g', v', h⟩
    | _ => simp [Action.event?, ih]

theorem run_built_is_only_result {nb' : NBNetBuilder}
    (hm : Action.newGNENet nb' ∈ (run env s).exec.trace)
    (hret : (run env s).uncaught = none)
    (hdel : ∀ n, Action.deleteNet (some n) ∉ (run env s).exec.trace) :
    ∃ u, loadResults (events (run env s).exec.trace) = [some ⟨nb', u⟩] ∧
      Action.queueAdd (.networkLoaded (some ⟨nb', u⟩)
        (if s.myFile ≠ "" then s.myFile
          else if s.myNewNet then ""
          else if (run env s).exec.oc.isSet "configuration-file" then
            (run env s).exec.oc.getString "configuration-file"
          else if (run env s).exec.oc.isSet "sumo-net-file" then
            (run env s).exec.oc.getString "sumo-net-file"
          else "")
        ((run env s).exec.oc.getString "gui-settings-file")
        ((run env s).exec.oc.getBool "registry-viewport")) ∈ (run env s).exec.trace := by
  obtain ⟨u, hu⟩ := run_built_is_carried env s hm hret hdel
  refine ⟨u, ?_, hu⟩
  have hlen := run_results_of_returned env s hret
  have hmem : some ⟨nb', u⟩ ∈ loadResults (events (run env s).exec.trace) :=
    mem_loadResults_events.mpr ⟨_, _, _, hu⟩
  match hl : loadResults (events (run env s).exec.trace), hlen, hmem with
  | [r], _, hmem' =>
    simp only [List.mem_singleton] at hmem'
    rw [hmem']

end Built

/-! ## Claims -/

/-- C1 (counterexample).  In a `_DEBUG` build, when `NILoader::load` raises a
`std::exception` that is not a `ProcessError`, the handler rethrows it (line 166): the
run appends no `GNEEvent_NetworkLoaded` at all, so not exactly one. -/
theorem debug_rethrow_posts_no_result :
    loadResults (events
      (loadConfigOrNet debugThrowEnv freshState "net.net.xml" true false false).exec.trace) = []
    ∧ ¬ (loadResults (events
      (loadConfigOrNet debugThrowEnv freshState "net.net.xml" true false false).exec.trace)).length
        = 1 := by
  decide

/-- C1 (amended).  For every load request and every behaviour of the collaborators,
if `run` returns (no exception leaves it), the events it appends to the queue contain
exactly one `GNEEvent_NetworkLoaded`. -/
theorem returned_run_posts_exactly_one_result (env : Env) (s : LoaderState) (file : String)
    (isNet useStartupOptions newNet : Bool)
    (h : (loadConfigOrNet env s file isNet useStartupOptions newNet).uncaught = none) :
    (loadResults (events
      (loadConfigOrNet env s file isNet useStartupOptions newNet).exec.trace)).length = 1 := by
  obtain ⟨args, e⟩ := loadConfigOrNet_eq_run env s file isNet useStartupOptions newNet
  rw [e] at h ⊢
  exact run_results_of_returned env _ h

/-- Witness of `returned_run_posts_exactly_one_result`: an empty network is requested
from silent collaborators. -/
theorem returned_run_posts_exactly_one_result_witness :
    (loadConfigOrNet quietEnv freshState "" false false true).uncaught = none ∧
    (loadResults (events
      (loadConfigOrNet quietEnv freshState "" false false true).exec.trace)).length = 1 :=
  ⟨by decide, returned_run_posts_exactly_one_result quietEnv freshState "" false false true
    (by decide)⟩

/-- C3 (counterexample).  A left-hand net file is imported, "ignore-errors" is not
set, and the geometry recomputation of line 144 writes an Error after the error check
of line 138: an Error-severity message event is posted, and the
`GNEEvent_NetworkLoaded` carries a network. -/
theorem error_after_check_keeps_network :
    errorMessages (events
      (loadConfigOrNet lefthandEnv freshState "net.net.xml" true true false).exec.trace)
      = ["Unable to compute geometry."] ∧
    Action.getBool "ignore-errors" true ∉
      (loadConfigOrNet lefthandEnv freshState "net.net.xml" true true false).exec.trace ∧
    loadResults (events
      (loadConfigOrNet lefthandEnv freshState "net.net.xml" true true false).exec.trace)
      = [some ⟨⟨[.applyOptions, .load]⟩, true⟩] := by
  decide

/-- C3 (amended).  For every request with `newNet = false` whose run never reads
"ignore-errors" as set: if `GeoConvHelper::init`, `NILoader::load` or
`NBNetBuilder::compute` is called in the run and writes an Error-severity message
(after the handlers are cleared at line 98 and before the error check of line 138),
then every `GNEEvent_NetworkLoaded` of the run carries a null network. -/
theorem import_error_gives_null_result (env : Env) (s : LoaderState) (file : String)
    (isNet useStartupOptions : Bool)
    (hign : Action.getBool "ignore-errors" true ∉
      (loadConfigOrNet env s file isNet useStartupOptions false).exec.trace)
    (herr : ∃ oc,
      (Action.geoConvInit oc ∈
          (loadConfigOrNet env s file isNet useStartupOptions false).exec.trace ∧
        hasError (env.geoConvInit oc).diags = true) ∨
      (Action.niLoad oc ∈
          (loadConfigOrNet env s file isNet useStartupOptions false).exec.trace ∧
        hasError (env.load oc).diags = true) ∨
      (Action.nbCompute oc ∈
          (loadConfigOrNet env s file isNet useStartupOptions false).exec.trace ∧
        hasError (env.compute oc).diags = true)) :
    ∀ r ∈ loadResults (events
      (loadConfigOrNet env s file isNet useStartupOptions false).exec.trace), r = none := by
  obtain ⟨args, e⟩ := loadConfigOrNet_eq_run env s file isNet useStartupOptions false
  rw [e] at hign herr ⊢
  exact run_null_of_import_error env _ rfl hign herr

/-- Witness of `import_error_gives_null_result`: `NILoader::load` writes an error while
importing a net file. -/
theorem import_error_gives_null_result_witness :
    Action.getBool "ignore-errors" true ∉
      (loadConfigOrNet loadErrorEnv freshState "net.net.xml" true true false).exec.trace ∧
    ∀ r ∈ loadResults (events
      (loadConfigOrNet loadErrorEnv freshState "net.net.xml" true true false).exec.trace),
      r = none :=
  ⟨by decide,
    import_error_gives_null_result loadErrorEnv freshState "net.net.xml" true true
      (by decide)
      ⟨(atBranch loadErrorEnv netFileRequest).oc, Or.inr (Or.inl ⟨by decide, rfl⟩)⟩⟩

/-- C4.  A request with `newNet = true` never calls `NILoader::load` and never calls
`NBNetBuilder::compute`, whatever the collaborators do. -/
theorem new_net_never_imports (env : Env) (s : LoaderState) (file : String)
    (isNet useStartupOptions : Bool) (oc : OptionsCont) :
    Action.niLoad oc ∉ (loadConfigOrNet env s file isNet useStartupOptions true).exec.trace ∧
    Action.nbCompute oc ∉
      (loadConfigOrNet env s file isNet useStartupOptions true).exec.trace := by
  obtain ⟨args, e⟩ := loadConfigOrNet_eq_run env s file isNet useStartupOptions true
  rw [e]
  obtain ⟨body, hb, hs⟩ := run_shape env
    { s with myFile := file, myLoadNet := isNet, myNewNet := true, args := args }
    preludeKinds (fun _ h => h) (fun h => by simp at h)
  have h₁ : Action.niLoad oc ∉ body := fun hm => by
    have := hb _ hm; simp [Action.kind, preludeKinds] at this
  have h₂ : Action.nbCompute oc ∉ body := fun hm => by
    have := hb _ hm; simp [Action.kind, preludeKinds] at this
  rcases hs with ⟨net, g, v, _, ht⟩ | ⟨_, ht⟩ <;> rw [ht] <;>
    simp [registerActions, submitActions, h₁, h₂]

/-- C5 (counterexample).  A new network is requested and `NIFrame::checkOptions`
returns `false`: the run posts a `GNEEvent_NetworkLoaded` whose network is null. -/
theorem new_net_with_failed_check_is_null :
    loadResults (events
      (loadConfigOrNet checkFailEnv freshState "" false false true).exec.trace) = [none] := by
  decide

/-- C5 (amended).  For every request with `newNet = true`: if every option parsing
call of the run returned without raising, every option check called in the run
returned `true`, and every `GeoConvHelper::init` call of the run returned `true`, then
the run posts one `GNEEvent_NetworkLoaded`, and it carries the network created from
the fresh builder. -/
theorem new_net_result_is_non_null (env : Env) (s : LoaderState) (file : String)
    (isNet useStartupOptions : Bool)
    (hparse : ∀ args oc,
      Action.getOptions args oc ∈
        (loadConfigOrNet env s file isNet useStartupOptions true).exec.trace →
      (env.getOptions args oc).result = none)
    (hcheck : ∀ f oc,
      Action.checkOptions f oc ∈
        (loadConfigOrNet env s file isNet useStartupOptions true).exec.trace →
      (env.checkOptions f oc).result = true)
    (hgeo : ∀ oc,
      Action.geoConvInit oc ∈
        (loadConfigOrNet env s file isNet useStartupOptions true).exec.trace →
      (env.geoConvInit oc).result = true) :
    loadResults (events (loadConfigOrNet env s file isNet useStartupOptions true).exec.trace)
      = [some ⟨⟨[.applyOptions]⟩, false⟩] := by
  obtain ⟨args, e⟩ := loadConfigOrNet_eq_run env s file isNet useStartupOptions true
  rw [e] at hparse hcheck hgeo ⊢
  exact run_new_net_result env _ rfl hparse hcheck hgeo

/-- Witness of `new_net_result_is_non_null`: silent collaborators that always
succeed. -/
theorem new_net_result_is_non_null_witness :
    (∀ args oc,
      Action.getOptions args oc ∈
        (loadConfigOrNet quietEnv freshState "" false false true).exec.trace →
      (quietEnv.getOptions args oc).result = none) ∧
    loadResults (events (loadConfigOrNet quietEnv freshState "" false false true).exec.trace)
      = [some ⟨⟨[.applyOptions]⟩, false⟩] :=
  ⟨fun _ _ _ => rfl,
    new_net_result_is_non_null quietEnv freshState "" false false (fun _ _ _ => rfl)
      (fun _ _ _ => rfl) (fun _ _ => rfl)⟩

/-- C6 (the code at the failing input).  A configuration file that cannot be read is
requested with `newNet = false`; option parsing raises a `ProcessError`.  `initOptions`
writes the two errors and flows off its end; `run` sees a non-zero value, goes on, and
posts a `GNEEvent_NetworkLoaded` with a network. -/
theorem unreadable_config_still_loads :
    errorMessages (events
      (loadConfigOrNet unreadableConfigEnv freshState "missing.sumocfg" false true
        false).exec.trace)
      = ["Could not access configuration 'missing.sumocfg'.", "Failed to parse options."] ∧
    loadResults (events
      (loadConfigOrNet unreadableConfigEnv freshState "missing.sumocfg" false true
        false).exec.trace)
      = [some ⟨⟨[.applyOptions, .load, .compute]⟩, false⟩] := by
  decide

/-- C7 (counterexample).  In a `_DEBUG` build `NILoader::load` raises a `std::exception`
that is not a `ProcessError`: the run posts the error, but the handler rethrows and no
`GNEEvent_NetworkLoaded` with a null network is posted. -/
theorem debug_rethrow_posts_error_only :
    errorMessages (events
      (loadConfigOrNet debugThrowEnv freshState "net.net.xml" true false false).exec.trace)
      = ["bad allocation"] ∧
    loadResults (events
      (loadConfigOrNet debugThrowEnv freshState "net.net.xml" true false false).exec.trace)
      ≠ [none] := by
  decide

/-- C7 (amended).  If in a run an option check returns `false`, or
`GeoConvHelper::init` returns `false`, or the import/build raises a `ProcessError`, or
(in a build without `_DEBUG`) the import/build raises another `std::exception`, then
the run posts exactly one `GNEEvent_NetworkLoaded`, with a null network, and an
Error-severity message event that describes the failure: "Invalid Options. Nothing
loaded", "Could not build projection!", "Failed to build network." (preceded by the
text of the `ProcessError` unless that is empty or "Process Error"), or the text of
the `std::exception`. -/
theorem failure_is_reported_with_null_result (env : Env) (s : LoaderState) (file : String)
    (isNet useStartupOptions newNet : Bool)
    (h : CheckFailed env
        (loadConfigOrNet env s file isNet useStartupOptions newNet).exec.trace ∨
      ProjectionFailed env
        (loadConfigOrNet env s file isNet useStartupOptions newNet).exec.trace ∨
      (∃ what, ImportRaised env
        (loadConfigOrNet env s file isNet useStartupOptions newNet).exec.trace
        (.processError what)) ∨
      (env.debugBuild = false ∧
        ∃ what, ImportRaised env
          (loadConfigOrNet env s file isNet useStartupOptions newNet).exec.trace
          (.stdException what))) :
    loadResults (events
      (loadConfigOrNet env s file isNet useStartupOptions newNet).exec.trace) = [none] ∧
    (CheckFailed env (loadConfigOrNet env s file isNet useStartupOptions newNet).exec.trace →
      "Invalid Options. Nothing loaded" ∈ errorMessages (events
        (loadConfigOrNet env s file isNet useStartupOptions newNet).exec.trace)) ∧
    (ProjectionFailed env
        (loadConfigOrNet env s file isNet useStartupOptions newNet).exec.trace →
      "Could not build projection!" ∈ errorMessages (events
        (loadConfigOrNet env s file isNet useStartupOptions newNet).exec.trace)) ∧
    (∀ what, ImportRaised env
        (loadConfigOrNet env s file isNet useStartupOptions newNet).exec.trace
        (.processError what) →
      "Failed to build network." ∈ errorMessages (events
        (loadConfigOrNet env s file isNet useStartupOptions newNet).exec.trace) ∧
      (what ≠ "" → what ≠ "Process Error" →
        what ∈ errorMessages (events
          (loadConfigOrNet env s file isNet useStartupOptions newNet).exec.trace))) ∧
    (∀ what, ImportRaised env
        (loadConfigOrNet env s file isNet useStartupOptions newNet).exec.trace
        (.stdException what) →
      env.debugBuild = false →
      what ∈ errorMessages (events
        (loadConfigOrNet env s file isNet useStartupOptions newNet).exec.trace)) := by
  obtain ⟨args, e⟩ := loadConfigOrNet_eq_run env s file isNet useStartupOptions newNet
  rw [e] at h ⊢
  exact run_failure_is_reported env _ h

/-- Witness of `failure_is_reported_with_null_result`: `NIFrame::checkOptions` returns
`false` for a new-network request. -/
theorem failure_is_reported_with_null_result_witness :
    CheckFailed checkFailEnv
      (loadConfigOrNet checkFailEnv freshState "" false false true).exec.trace ∧
    loadResults (events
      (loadConfigOrNet checkFailEnv freshState "" false false true).exec.trace) = [none] ∧
    "Invalid Options. Nothing loaded" ∈ errorMessages (events
      (loadConfigOrNet checkFailEnv freshState "" false false true).exec.trace) :=
  have hc : CheckFailed checkFailEnv
      (loadConfigOrNet checkFailEnv freshState "" false false true).exec.trace :=
    ⟨.NIFrame, (afterInit checkFailEnv { freshState with myNewNet := true }).1.oc,
      by decide, rfl⟩
  have hr := failure_is_reported_with_null_result checkFailEnv freshState "" false false true
    (Or.inl hc)
  ⟨hc, hr.1, hr.2.1 hc⟩

/-- C8.  Two runs submitted with the same request and the same collaborators from
states that differ only in the contents of the options registry are equal: they leave
the same registry, the same trace (which records the registry handed to every
collaborator) and the same outcome.  `fillOptions` itself yields the same registry
from any registry. -/
theorem registry_contents_do_not_leak (env : Env) (s : LoaderState) (oc₁ oc₂ : OptionsCont)
    (file : String) (isNet useStartupOptions newNet : Bool) :
    loadConfigOrNet env { s with oc := oc₁ } file isNet useStartupOptions newNet
      = loadConfigOrNet env { s with oc := oc₂ } file isNet useStartupOptions newNet ∧
    fillOptions env oc₁ = fillOptions env oc₂ := by
  constructor
  · unfold loadConfigOrNet
    simp only []
    split <;> rfl
  · rfl

/-- C9.  For every run that builds a network successfully -- it creates a network from
a builder, deletes no network, and returns -- the one `GNEEvent_NetworkLoaded` of the
run carries that network, the value of "gui-settings-file" as settings file, the value
of "registry-viewport" as viewport flag (both as in the registry the run leaves), and
as file name the file of the request when that is not empty, and otherwise: empty for
a new network, and for an imported one the value of "configuration-file" when that
option is set, else the value of "sumo-net-file" when that option is set, else
empty. -/
theorem built_network_is_carried (env : Env) (s : LoaderState) (file : String)
    (isNet useStartupOptions newNet : Bool) (netBuilder : NBNetBuilder)
    (hbuilt : Action.newGNENet netBuilder ∈
      (loadConfigOrNet env s file isNet useStartupOptions newNet).exec.trace)
    (hreturned : (loadConfigOrNet env s file isNet useStartupOptions newNet).uncaught = none)
    (hkept : ∀ n, Action.deleteNet (some n) ∉
      (loadConfigOrNet env s file isNet useStartupOptions newNet).exec.trace) :
    ∃ updated,
      loadResults (events
        (loadConfigOrNet env s file isNet useStartupOptions newNet).exec.trace)
        = [some ⟨netBuilder, updated⟩] ∧
      Action.queueAdd (.networkLoaded (some ⟨netBuilder, updated⟩)
        (if file ≠ "" then file
          else if newNet then ""
          else if (loadConfigOrNet env s file isNet useStartupOptions newNet).exec.oc.isSet
              "configuration-file" then
            (loadConfigOrNet env s file isNet useStartupOptions newNet).exec.oc.getString
              "configuration-file"
          else if (loadConfigOrNet env s file isNet useStartupOptions newNet).exec.oc.isSet
              "sumo-net-file" then
            (loadConfigOrNet env s file isNet useStartupOptions newNet).exec.oc.getString
              "sumo-net-file"
          else "")
        ((loadConfigOrNet env s file isNet useStartupOptions newNet).exec.oc.getString
          "gui-settings-file")
        ((loadConfigOrNet env s file isNet useStartupOptions newNet).exec.oc.getBool
          "registry-viewport")) ∈
        (loadConfigOrNet env s file isNet useStartupOptions newNet).exec.trace := by
  obtain ⟨args, e⟩ := loadConfigOrNet_eq_run env s file isNet useStartupOptions newNet
  rw [e] at hbuilt hreturned hkept ⊢
  exact run_built_is_only_result env _ hbuilt hreturned hkept

/-- Witness of `built_network_is_carried`: a net file imported through silent
collaborators. -/
theorem built_network_is_carried_witness :
    Action.newGNENet ⟨[.applyOptions, .load]⟩ ∈
      (loadConfigOrNet quietEnv freshState "net.net.xml" true false false).exec.trace ∧
    ∃ updated,
      loadResults (events
        (loadConfigOrNet quietEnv freshState "net.net.xml" true false false).exec.trace)
        = [some ⟨⟨[.applyOptions, .load]⟩, updated⟩] :=
  ⟨by decide,
    (built_network_is_carried quietEnv freshState "net.net.xml" true false false
      ⟨[.applyOptions, .load]⟩ (by decide) (by decide)
      (fun _ h =>
        (by decide : ∀ a ∈
          (loadConfigOrNet quietEnv freshState "net.net.xml" true false false).exec.trace,
          a.kind ≠ .delete) _ h rfl)).imp
      (fun _ h => h.1)⟩

end GNELoadThread

namespace MeanData

/-! ## Mean data: taking the first parent -/

section Parents

variable (defs : SUMOXMLDefinitions) (net : GNELoadThread.GNENet) (edge : GNEEdge)
  (lane : GNELane) (file : String)

theorem front_cons {α : Type} (a : α) (l : List α) : front (a :: l) = .ok a := rfl

theorem front_eq_ok_iff {α : Type} (l : List α) (a : α) :
    front l = .ok a ↔ l.head? = some a := by
  cases l <;> simp [front]

theorem front_eq_error_iff {α : Type} (l : List α) (e : Fault) :
    front l = .error e ↔ l = [] ∧ e = .emptyFront := by
  cases l <;> simp [front, eq_comm]

/-- An object on an edge: every accessor finds its first parent. -/
theorem ofEdge_accessors :
    (GNEMeanData.ofEdge net edge file).getPositionInView = .ok edge.getPositionInView ∧
    (GNEMeanData.ofEdge net edge file).getAttribute defs .SUMO_ATTR_ID = .ok edge.getID ∧
    (GNEMeanData.ofEdge net edge file).getHierarchyName defs
      = .ok (defs.tagStr .SUMO_TAG_MEANDATA_EDGE ++ ": " ++ edge.getID) ∧
    (GNEMeanData.ofEdge net edge file).getCenteringBoundary
      = .ok edge.getCenteringBoundary := by
  refine ⟨rfl, rfl, rfl, rfl⟩

/-- An object on a lane: the three accessors that look at the parent lanes first find
their first parent. -/
theorem ofLane_accessors :
    (GNEMeanData.ofLane net lane file).getPositionInView = .ok lane.getPositionInView ∧
    (GNEMeanData.ofLane net lane file).getAttribute defs .SUMO_ATTR_ID = .ok lane.getID ∧
    (GNEMeanData.ofLane net lane file).getHierarchyName defs
      = .ok (defs.tagStr .SUMO_TAG_MEANDATA_LANE ++ ": " ++ lane.getID) := by
  refine ⟨rfl, rfl, rfl⟩

/-- The accessor `getCenteringBoundary` ends in `front()` of an empty vector exactly when
the object has no parent edge. -/
theorem getCenteringBoundary_emptyFront_iff (m : GNEMeanData) :
    m.getCenteringBoundary = .error .emptyFront ↔ m.parentEdges = [] := by
  unfold GNEMeanData.getCenteringBoundary
  cases m.parentEdges <;> simp [front, Except.map]

/-- The three other accessors end in `front()` of an empty vector exactly when the
object has neither a parent lane nor a parent edge. -/
theorem getPositionInView_emptyFront_iff (m : GNEMeanData) :
    m.getPositionInView = .error .emptyFront ↔ m.parentLanes = [] ∧ m.parentEdges = [] := by
  unfold GNEMeanData.getPositionInView
  cases m.parentLanes <;> cases m.parentEdges <;> simp [front, Except.map]

end Parents

/-! ## Mean data: claims -/

/-- C11.  For every key and value, `setAttribute(key, value, undoList)` raises
`InvalidArgument`.  For `SUMO_ATTR_FILE` the undo list has by then received exactly one
more change, `(this, key, value)`, after those it already held; for every other key
the undo list is as it was. -/
theorem setAttribute_always_raises (defs : SUMOXMLDefinitions) (m : GNEMeanData)
    (key : SumoXMLAttr) (value : String) (undoList : GNEUndoList) :
    (m.setAttribute defs key value undoList).raised
      = some (.InvalidArgument (defs.tagStr m.tag ++ " doesn't have an attribute of type '"
          ++ defs.attrStr key ++ "'")) ∧
    (key = .SUMO_ATTR_FILE →
      (m.setAttribute defs key value undoList).state.changes
        = undoList.changes ++ [⟨m, key, value⟩]) ∧
    (key ≠ .SUMO_ATTR_FILE → (m.setAttribute defs key value undoList).state = undoList) := by
  refine ⟨rfl, ?_, ?_⟩
  · rintro rfl
    rfl
  · intro hkey
    cases key <;> first | rfl | exact absurd rfl hkey

/-- Witness of `setAttribute_always_raises` on an object attached to the edge "E0":
the key `SUMO_ATTR_FILE` submits one change to an empty undo list and raises, the key
`SUMO_ATTR_ID` raises and submits nothing. -/
theorem setAttribute_always_raises_witness :
    ((edgeMeanData.setAttribute plainDefinitions .SUMO_ATTR_FILE "out.xml" ⟨[]⟩).raised
        = some (.InvalidArgument "meanDataEdge doesn't have an attribute of type 'file'") ∧
      (edgeMeanData.setAttribute plainDefinitions .SUMO_ATTR_FILE "out.xml" ⟨[]⟩).state.changes
        = [⟨edgeMeanData, .SUMO_ATTR_FILE, "out.xml"⟩]) ∧
    (SumoXMLAttr.SUMO_ATTR_ID ≠ SumoXMLAttr.SUMO_ATTR_FILE ∧
      (edgeMeanData.setAttribute plainDefinitions .SUMO_ATTR_ID "E1" ⟨[]⟩).state = ⟨[]⟩) :=
  ⟨⟨(setAttribute_always_raises plainDefinitions edgeMeanData .SUMO_ATTR_FILE "out.xml" ⟨[]⟩).1,
      (setAttribute_always_raises plainDefinitions edgeMeanData .SUMO_ATTR_FILE "out.xml"
        ⟨[]⟩).2.1 rfl⟩,
    by decide,
    (setAttribute_always_raises plainDefinitions edgeMeanData .SUMO_ATTR_ID "E1" ⟨[]⟩).2.2
      (by decide)⟩

/-- C12.  For every object and every string `v`, the direct
`setAttribute(SUMO_ATTR_FILE, v)` returns normally; afterwards
`getAttribute(SUMO_ATTR_FILE)` returns `v` and `getAttribute(SUMO_ATTR_ID)` gives what it
gave before.  With any other key the direct `setAttribute` raises `InvalidArgument` and
the object, its stored file included, is as it was. -/
theorem direct_setAttribute_stores_file (defs : SUMOXMLDefinitions) (m : GNEMeanData)
    (v : String) :
    (m.setAttributeDirect defs .SUMO_ATTR_FILE v).raised = none ∧
    (m.setAttributeDirect defs .SUMO_ATTR_FILE v).state.getAttribute defs .SUMO_ATTR_FILE
      = .ok v ∧
    (m.setAttributeDirect defs .SUMO_ATTR_FILE v).state.getAttribute defs .SUMO_ATTR_ID
      = m.getAttribute defs .SUMO_ATTR_ID ∧
    ∀ key : SumoXMLAttr, key ≠ .SUMO_ATTR_FILE →
      (m.setAttributeDirect defs key v).raised
        = some (.InvalidArgument (defs.tagStr m.tag
            ++ " doesn't have an attribute of type '" ++ defs.attrStr key ++ "'")) ∧
      (m.setAttributeDirect defs key v).state = m ∧
      (m.setAttributeDirect defs key v).state.getAttribute defs .SUMO_ATTR_FILE
        = .ok m.myFile := by
  refine ⟨rfl, rfl, rfl, ?_⟩
  intro key hkey
  cases key <;> first | exact ⟨rfl, rfl, rfl⟩ | exact absurd rfl hkey

/-- Witness of `direct_setAttribute_stores_file` on an object attached to the lane
"E0_0": after the file is set to "out.xml" the file reads "out.xml" and the ID still
reads "E0_0"; setting the ID directly raises and the file still reads
"lanedata.xml". -/
theorem direct_setAttribute_stores_file_witness :
    ((laneMeanData.setAttributeDirect plainDefinitions .SUMO_ATTR_FILE "out.xml").state.getAttribute
        plainDefinitions .SUMO_ATTR_FILE = .ok "out.xml" ∧
      (laneMeanData.setAttributeDirect plainDefinitions .SUMO_ATTR_FILE "out.xml").state.getAttribute
        plainDefinitions .SUMO_ATTR_ID = .ok "E0_0") ∧
    SumoXMLAttr.SUMO_ATTR_ID ≠ SumoXMLAttr.SUMO_ATTR_FILE ∧
    (laneMeanData.setAttributeDirect plainDefinitions .SUMO_ATTR_ID "E1").raised
      = some (.InvalidArgument "meanDataLane doesn't have an attribute of type 'id'") ∧
    (laneMeanData.setAttributeDirect plainDefinitions .SUMO_ATTR_ID "E1").state.getAttribute
      plainDefinitions .SUMO_ATTR_FILE = .ok "lanedata.xml" :=
  ⟨⟨(direct_setAttribute_stores_file plainDefinitions laneMeanData "out.xml").2.1,
      (direct_setAttribute_stores_file plainDefinitions laneMeanData "out.xml").2.2.1⟩,
    by decide,
    ((direct_setAttribute_stores_file plainDefinitions laneMeanData "E1").2.2.2
      .SUMO_ATTR_ID (by decide)).1,
    ((direct_setAttribute_stores_file plainDefinitions laneMeanData "E1").2.2.2
      .SUMO_ATTR_ID (by decide)).2.2⟩

/-- C13 (the code at the failing input).  On every object built by the lane
constructor `getCenteringBoundary` calls `front()` on the empty list of parent edges,
while `getPositionInView`, `getAttribute(SUMO_ATTR_ID)` and `getHierarchyName` read the
parent lane. -/
theorem lane_centering_boundary_reads_empty_list (defs : SUMOXMLDefinitions)
    (net : GNELoadThread.GNENet) (lane : GNELane) (file : String) :
    (GNEMeanData.ofLane net lane file).parentEdges = [] ∧
    (GNEMeanData.ofLane net lane file).getCenteringBoundary = .error .emptyFront ∧
    (GNEMeanData.ofLane net lane file).getPositionInView = .ok lane.getPositionInView ∧
    (GNEMeanData.ofLane net lane file).getAttribute defs .SUMO_ATTR_ID = .ok lane.getID ∧
    (GNEMeanData.ofLane net lane file).getHierarchyName defs
      = .ok (defs.tagStr .SUMO_TAG_MEANDATA_LANE ++ ": " ++ lane.getID) := by
  refine ⟨rfl, rfl, rfl, rfl, rfl⟩

end MeanData
